import Mathlib

/-
Verification of the bbc_simple core service (bbc_simple/core/bbc_core.py)
against its natural-language specification.

Shallow embedding conventions:
- Binary identifiers (domain ids, user ids, transaction ids, asset ids) and
  opaque serialized byte strings are modelled as Nat tokens.
- Python dicts keyed by identifiers are association lists; Python dict
  membership and indexing are `alookup` (indexing raising KeyError is an
  `Except.error`).
- External collaborators (storage handler, crypto library) are records of
  functions; their behavior is universally quantified in the theorems.
- Functions that can raise an uncaught Python exception return
  `Except String _`; `.error` marks the exception (which, in the real
  service, propagates to the connection handler and ends the connection
  loop).
-/

/-- A parsed transaction object (BBcTransaction), as seen by bbc_core after
`deserialize` and `digest`: `transaction_id` is the digest recomputed and
attached by `digest()`; `transaction_data` is a token for the serialized
bytes.  The validation outcome of the external crypto collaborator is
carried in the object so that `validate_transaction_object` is a function
of its argument. -/
structure TxObj where
  transaction_id : Nat
  transaction_data : Nat
  valid_flag : Bool
  valid_assets : List Nat
  invalid_assets : List Nat
  deriving DecidableEq, Repr

/-- Modelled from the spec: `bbclib.validate_transaction_object` is not under
src/ (bbclib.py is an external crypto/serialization collaborator file of the
repository).  Per spec section 6, `validate(parsedObject) ->
(valid:bool, validAssetIds, invalidAssetIds)`: it returns a 3-tuple.  This
matches bbc_core.py line 475, which unpacks the result as
`flag, valid_asset, invalid_asset = bbclib.validate_transaction_object(txobj)`. -/
def validate_transaction_object (t : TxObj) : Bool × List Nat × List Nat :=
  (t.valid_flag, t.valid_assets, t.invalid_assets)

/-- Python truthiness of a 3-tuple: `bool((a, b, c))` is `len((a,b,c)) != 0`,
i.e. always `True` for a 3-tuple.  bbc_core.py line 81 writes
`if bbclib.validate_transaction_object(txobj):`, which applies exactly this
truthiness test to the returned triple. -/
def py_truthy_triple (_t : Bool × List Nat × List Nat) : Bool :=
  true

/-- The classification result of `_create_search_result`: the
`KeyType.transactions` and `KeyType.compromised_transactions` entries of the
response dict.  A key is present in the Python dict iff the corresponding
list here is nonempty (`setdefault` only creates the key when appending). -/
structure SearchResult where
  transactions : List Nat
  compromised_transactions : List Nat
  deriving DecidableEq, Repr

/-- bbc_core.py lines 74-85, `_create_search_result(txobj_dict)`: for each
(claimed txid, txobj) pair, an id mismatch goes to compromised_transactions;
otherwise the object goes to transactions when
`if bbclib.validate_transaction_object(txobj):` is truthy (which, the result
being a 3-tuple, it always is), else to compromised_transactions. -/
def _create_search_result (txobj_dict : List (Nat × TxObj)) : SearchResult :=
  txobj_dict.foldl
    (fun acc p =>
      if p.1 ≠ p.2.transaction_id then
        { acc with compromised_transactions :=
            acc.compromised_transactions ++ [p.2.transaction_data] }
      else if py_truthy_triple (validate_transaction_object p.2) then
        { acc with transactions := acc.transactions ++ [p.2.transaction_data] }
      else
        { acc with compromised_transactions :=
            acc.compromised_transactions ++ [p.2.transaction_data] })
    ⟨[], []⟩

/-- Message keys (message_key_types.KeyType) used by the embedded commands. -/
inductive KeyType where
  | command
  | source_user_id
  | destination_user_id
  | destination_user_ids
  | domain_id
  | query_id
  | status
  | reason
  | transaction_id
  | transaction_data
  | transactions
  | compromised_transactions
  | compromised_transaction_data
  | asset_group_id
  | asset_id
  | user_id
  | count
  | direction
  | hop_count
  | transaction_tree
  | all_included
  | hint
  deriving DecidableEq, Repr

/-- Command tags (bbclib.MsgType) used by the embedded dispatcher branches. -/
inductive MsgType where
  | REQUEST_SEARCH_WITH_CONDITIONS
  | RESPONSE_SEARCH_WITH_CONDITIONS
  | REQUEST_TRAVERSE_TRANSACTIONS
  | RESPONSE_TRAVERSE_TRANSACTIONS
  | REQUEST_GATHER_SIGNATURE
  | REQUEST_SIGNATURE
  | REQUEST_INSERT
  | RESPONSE_INSERT
  deriving DecidableEq, Repr

/-- Message values.  The codec (message_key_types) types each key: id-like
keys carry byte strings (`bytes` tokens), numeric keys carry ints, list
keys carry lists.  `vnone` is Python `None` (used e.g. as the initial
destination in `_make_message_structure`). -/
inductive Value where
  | bytes : Nat → Value
  | vnone : Value
  | int : Int → Value
  | str : String → Value
  | boolean : Bool → Value
  | cmd : MsgType → Value
  | idlist : List Nat → Value
  | datalist : List Nat → Value
  | tree : List (List Nat) → Value
  deriving DecidableEq, Repr

/-- A received or outgoing message: a dict from keys to values, modelled as
an association list with unique keys (first binding wins, `msg_set`
replaces in place like Python dict assignment). -/
abbrev Msg := List (KeyType × Value)

def msg_get : Msg → KeyType → Option Value
  | [], _ => none
  | (k, v) :: rest, key => if k = key then some v else msg_get rest key

def msg_hasKey (m : Msg) (k : KeyType) : Bool :=
  (msg_get m k).isSome

def msg_set : Msg → KeyType → Value → Msg
  | [], key, v => [(key, v)]
  | (k, w) :: rest, key, v =>
      if k = key then (k, v) :: rest else (k, w) :: msg_set rest key v

/-- Python `dat[key]`: raises KeyError when the key is absent. -/
def getOrKeyError (m : Msg) (k : KeyType) : Except String Value :=
  match msg_get m k with
  | some v => .ok v
  | none => .error "KeyError"

/-- Extraction of an id-valued optional field, Python
`dat.get(key, None)` followed by use as an identifier. -/
def optVBytes (o : Option Value) : Option Nat :=
  match o with
  | some (.bytes b) => some b
  | _ => none

/-- Extraction of an int-valued optional field with a default, Python
`dat.get(key, default)`. -/
def optVInt (o : Option Value) (dflt : Int) : Int :=
  match o with
  | some (.int i) => i
  | _ => dflt

/-- Modelled from the spec: bbc_error.py is not under src/.  The spec fixes
status 0 as success and negative values as error codes; the exact numeric
values are opaque, so distinct negative representatives are chosen. -/
def ESUCCESS : Int := 0

def EINVALID_COMMAND : Int := -1

def ENOTRANSACTION : Int := -2

def EBADTRANSACTION : Int := -3

def EOTHER : Int := -4

/-- Generic association-list lookup, modelling Python dict indexing and
membership over the domain registry and the transaction store. -/
def alookup {α β : Type} [DecidableEq α] : List (α × β) → α → Option β
  | [], _ => none
  | (k, v) :: rest, key => if key = k then some v else alookup rest key

/-- The per-domain storage collaborator ('data' handle): the external
storage interface consumed by bbc_core (spec section 6). -/
structure DataHandler where
  search_transaction : Nat → Option TxObj
  search_by_condition :
    Option Nat → Option Nat → Option Nat → Int → Int → List (Nat × TxObj)
  search_transaction_topology : Nat → Bool → Option (List (Nat × Nat × Nat))
  get_asset_info : TxObj → List (Nat × Nat × Nat)
  insert_transaction : Nat → TxObj → Option (List Nat)

/-- The domain registry (`self.networking.domains`), restricted to the
'data' handles: a map from domain id to its storage collaborator.
Membership tests (`domain_id in self.networking.domains`) use the keys. -/
abbrev Domains := List (Nat × DataHandler)

/-- Python `domain_id in self.networking.domains` / indexing for an
arbitrary message value: only a byte-string value can be a registered key. -/
def domainLookup (domains : Domains) (v : Value) : Option DataHandler :=
  match v with
  | .bytes d => alookup domains d
  | _ => none

/-- Observable delivery actions of one dispatch: a message handed to a
domain's User Routing Table (`umr.send_message_to_user`) or written
straight to the originating socket
(`user_message_routing.direct_send_to_user`). -/
inductive Effect where
  | routed : Msg → Effect
  | direct : Msg → Effect
  deriving DecidableEq, Repr

/-- Result of one `_process` branch: the disconnection flag returned to the
connection loop, plus the delivery actions performed. -/
structure ProcOut where
  disconnection : Bool
  effects : List Effect
  deriving DecidableEq, Repr

/-- bbc_core.py lines 54-71, `_make_message_structure`. -/
def _make_message_structure (domain_id : Value) (c : MsgType)
    (dstid : Value) (qid : Value) : Msg :=
  [(.domain_id, domain_id), (.command, .cmd c), (.destination_user_id, dstid),
   (.query_id, qid), (.status, .int ESUCCESS)]

/-- bbc_core.py lines 127-144, `_error_reply`: sets status and reason on the
message (in place), then reads `msg[KeyType.domain_id]` (KeyError when the
key is absent); if that domain is registered the message is routed through
its User Routing Table and True is returned, otherwise nothing is sent and
False is returned.  Returns (sent flag, mutated message, effects). -/
def _error_reply (domains : Domains) (msg : Msg) (err_code : Int)
    (txt : String) : Except String (Bool × Msg × List Effect) :=
  let msg := msg_set (msg_set msg .status (.int err_code)) .reason (.str txt)
  match msg_get msg .domain_id with
  | none => .error "KeyError"
  | some v =>
    match domainLookup domains v with
    | some _ => .ok (true, msg, [.routed msg])
    | none => .ok (false, msg, [])

/-- The recurring dispatcher idiom
`if not self._error_reply(msg=retmsg, ...): direct_send_to_user(socket, retmsg)`
(e.g. bbc_core.py lines 256-257, 289-290): note that the directly sent
message is the one already mutated by `_error_reply`. -/
def error_reply_or_direct (domains : Domains) (retmsg : Msg) (err_code : Int)
    (txt : String) : Except String (List Effect) := do
  let r ← _error_reply domains retmsg err_code txt
  if r.1 then .ok r.2.2 else .ok (r.2.2 ++ [.direct r.2.1])

/-- bbc_core.py lines 181-199, `_param_check` (list form, as used by every
dispatcher branch): on the first missing key, `_error_reply` is invoked with
code EINVALID_COMMAND and reason "lack of mandatory params" and False is
returned; its boolean result is discarded, so no direct-to-socket fallback
happens here. -/
def _param_check (domains : Domains) (params : List KeyType) (dat : Msg) :
    Except String (Bool × List Effect) :=
  match params.find? (fun p => !(msg_hasKey dat p)) with
  | some _ => do
    let r ← _error_reply domains dat EINVALID_COMMAND "lack of mandatory params"
    .ok (false, r.2.2)
  | none => .ok (true, [])

/-- bbc_core.py line 48: `TX_TRAVERSAL_MAX = 30`. -/
def TX_TRAVERSAL_MAX : Nat := 30

/-- The per-record filter test of bbc_core.py lines 689-699: the Python loop
sets `flag = True` for the record and clears it on any mismatch with a
specified filter, breaking on the first fully matching record; the net
result is: some asset record matches every specified filter. -/
def filter_match (asset_group_id user_id : Option Nat)
    (info : List (Nat × Nat × Nat)) : Bool :=
  info.any (fun r =>
    (match asset_group_id with
     | none => true
     | some g => r.1 == g) &&
    (match user_id with
     | none => true
     | some u => r.2.2 == u))

/-- bbc_core.py lines 706-710: the next id of a topology tuple is index 2
when traversing to the past, index 1 otherwise. -/
def pickNext (traverse_to_past : Bool) (e : Nat × Nat × Nat) : Nat :=
  if traverse_to_past then e.2.2 else e.2.1

/-- The mutable locals of one layer of `_traverse_transactions`
(bbc_core.py lines 666-715): the running visited counter `tx_count`, the
visited-id dict `txids` (an insertion-ordered duplicate-free list; an id is
appended exactly when `dh.search_transaction` is invoked for it, so `txids`
is also the list of ids resolved against storage), the serialized
transactions `tx_brothers` collected for the current layer, and the
candidate ids `next_txids` for the following layer. -/
structure LayerState where
  tx_count : Nat
  txids : List Nat
  tx_brothers : List Nat
  next_txids : List Nat
  deriving DecidableEq, Repr

/-- bbc_core.py lines 681-712, the body of `for txid in current_txids`:
skip already-visited ids; otherwise count and mark the id, resolve it in
storage (skip when absent), apply the asset filter when one is specified
(`continue` on failure skips both the tree contribution and the topology
expansion), record the serialized transaction, and append the not-yet-
visited neighbor ids (the membership test uses the txids dict as already
updated with the current id, and duplicates among the appended candidates
are kept, exactly as in the Python list append). -/
def processTxid (dh : DataHandler) (asset_group_id user_id : Option Nat)
    (traverse_to_past : Bool) (st : LayerState) (txid : Nat) : LayerState :=
  if st.txids.contains txid then st
  else
    let st1 : LayerState :=
      { st with tx_count := st.tx_count + 1, txids := st.txids ++ [txid] }
    match dh.search_transaction txid with
    | none => st1
    | some txobj =>
      if (asset_group_id.isSome || user_id.isSome) &&
          !(filter_match asset_group_id user_id (dh.get_asset_info txobj)) then
        st1
      else
        let st2 : LayerState :=
          { st1 with tx_brothers := st1.tx_brothers ++ [txobj.transaction_data] }
        match dh.search_transaction_topology txid traverse_to_past with
        | none => st2
        | some edges =>
          let fresh := (edges.map (pickNext traverse_to_past)).filter
            (fun n => !(st2.txids.contains n))
          { st2 with next_txids := st2.next_txids ++ fresh }

/-- The state returned by the hop loop of `_traverse_transactions`: the
Python locals `include_all_flag`, `txtree`, `tx_count` and `txids` at loop
exit.  The function itself returns only the first two (bbc_core.py
line 717); the last two are kept so theorems can speak about the set of
ids resolved against storage. -/
structure TravOut where
  include_all_flag : Bool
  txtree : List (List Nat)
  tx_count : Nat
  txids : List Nat
  deriving DecidableEq, Repr

/-- bbc_core.py lines 673-715, `for i in range(hop_count)`: stop before
processing a layer whenever the visited counter plus the size of the
candidate list would exceed TX_TRAVERSAL_MAX (clearing include_all_flag);
otherwise process every candidate of the layer, append the layer's
collection to the tree when nonempty, and continue with the gathered
candidates. -/
def travLoop (dh : DataHandler) (asset_group_id user_id : Option Nat)
    (traverse_to_past : Bool) :
    Nat → Nat → List Nat → List Nat → List (List Nat) → Bool → TravOut
  | 0, tx_count, txids, _current, txtree, flag =>
    ⟨flag, txtree, tx_count, txids⟩
  | Nat.succ hops, tx_count, txids, current_txids, txtree, flag =>
    if tx_count + current_txids.length > TX_TRAVERSAL_MAX then
      ⟨false, txtree, tx_count, txids⟩
    else
      let st := current_txids.foldl
        (processTxid dh asset_group_id user_id traverse_to_past)
        ⟨tx_count, txids, [], []⟩
      let txtree' := if st.tx_brothers.length > 0 then txtree ++ [st.tx_brothers]
                     else txtree
      travLoop dh asset_group_id user_id traverse_to_past hops
        st.tx_count st.txids st.next_txids txtree' flag

/-- Mirror of the per-layer budget guard of `travLoop`: true iff no layer of
the walk trips the `tx_count + len(current_txids) > TX_TRAVERSAL_MAX`
check of bbc_core.py line 677. -/
def layersOK (dh : DataHandler) (asset_group_id user_id : Option Nat)
    (traverse_to_past : Bool) : Nat → Nat → List Nat → List Nat → Bool
  | 0, _, _, _ => true
  | Nat.succ hops, tx_count, txids, current_txids =>
    if tx_count + current_txids.length > TX_TRAVERSAL_MAX then false
    else
      let st := current_txids.foldl
        (processTxid dh asset_group_id user_id traverse_to_past)
        ⟨tx_count, txids, [], []⟩
      layersOK dh asset_group_id user_id traverse_to_past hops
        st.tx_count st.txids st.next_txids

/-- bbc_core.py lines 662-717 after the None checks and the registry
access: the traversal proper, with full exit state.  The requested
hop_count is an int; a request above `TX_TRAVERSAL_MAX * 2` is clamped to
it with include_all_flag cleared; `range(hop_count)` of a non-positive
count is empty (`Int.toNat`). -/
def traverse_full (dh : DataHandler) (transaction_id : Nat)
    (asset_group_id user_id : Option Nat) (direction : Int)
    (hop_count : Int) : TravOut :=
  let traverse_to_past : Bool := direction == 1
  let clamp : Int × Bool :=
    if hop_count > (TX_TRAVERSAL_MAX : Int) * 2 then
      ((TX_TRAVERSAL_MAX : Int) * 2, false)
    else (hop_count, true)
  travLoop dh asset_group_id user_id traverse_to_past clamp.1.toNat
    0 [] [transaction_id] [] clamp.2

/-- The pair actually returned by the traversal (bbc_core.py line 717):
`(include_all_flag, txtree)`. -/
def traverse_core (dh : DataHandler) (transaction_id : Nat)
    (asset_group_id user_id : Option Nat) (direction : Int)
    (hop_count : Int) : Bool × List (List Nat) :=
  let out := traverse_full dh transaction_id asset_group_id user_id
    direction hop_count
  (out.include_all_flag, out.txtree)

/-- bbc_core.py lines 637-717, `_traverse_transactions`: None domain or
None transaction id return None; an unregistered domain raises KeyError at
`self.networking.domains[domain_id]`; otherwise the traversal pair is
returned. -/
def _traverse_transactions (domains : Domains) (domain_id : Option Nat)
    (transaction_id : Option Nat) (asset_group_id user_id : Option Nat)
    (direction : Int) (hop_count : Int) :
    Except String (Option (Bool × List (List Nat))) :=
  match domain_id with
  | none => .ok none
  | some did =>
    match transaction_id with
    | none => .ok none
    | some txid =>
      match alookup domains did with
      | none => .error "KeyError"
      | some dh =>
        .ok (some (traverse_core dh txid asset_group_id user_id
          direction hop_count))

/-- bbc_core.py lines 589-615, `search_transaction_with_condition`: None
domain returns None; an unregistered domain raises KeyError at the registry
access; a None or empty storage result returns None; otherwise the result
is classified by `_create_search_result`. -/
def search_transaction_with_condition (domains : Domains)
    (domain_id : Option Nat) (asset_group_id asset_id user_id : Option Nat)
    (direction count : Int) : Except String (Option SearchResult) :=
  match domain_id with
  | none => .ok none
  | some did =>
    match alookup domains did with
    | none => .error "KeyError"
    | some dh =>
      let ret_txobj := dh.search_by_condition asset_group_id asset_id user_id
        direction count
      if ret_txobj.length == 0 then .ok none
      else .ok (some (_create_search_result ret_txobj))

/-- Python `retmsg.update(txinfo)` for a classification result: each key of
the result dict (present iff its list is nonempty) is copied into the
response message. -/
def apply_search_result (m : Msg) (info : SearchResult) : Msg :=
  let m := if info.transactions.isEmpty then m
           else msg_set m .transactions (.datalist info.transactions)
  if info.compromised_transactions.isEmpty then m
  else msg_set m .compromised_transactions (.datalist info.compromised_transactions)

/-- bbc_core.py lines 243-260, the REQUEST_SEARCH_WITH_CONDITIONS branch of
`_process`: param check on domain_id, build the response skeleton (indexing
source_user_id and query_id), run the conditional search, then either send
the ENOTRANSACTION error reply (falling back to a direct socket write when
the error reply could not be routed) when the search returned None or the
result has no `transactions` key, or route the response updated with the
result.  The branch always reports disconnection = False. -/
def process_search_with_conditions (domains : Domains) (dat : Msg) :
    Except String ProcOut := do
  let pc ← _param_check domains [.domain_id] dat
  if !pc.1 then return ⟨false, pc.2⟩
  let srcv ← getOrKeyError dat .source_user_id
  let qidv ← getOrKeyError dat .query_id
  let domain_id_v := (msg_get dat .domain_id).getD .vnone
  let retmsg := _make_message_structure domain_id_v
    .RESPONSE_SEARCH_WITH_CONDITIONS srcv qidv
  let txinfo ← search_transaction_with_condition domains
    (optVBytes (msg_get dat .domain_id))
    (optVBytes (msg_get dat .asset_group_id))
    (optVBytes (msg_get dat .asset_id))
    (optVBytes (msg_get dat .user_id))
    (optVInt (msg_get dat .direction) 0)
    (optVInt (msg_get dat .count) 1)
  match txinfo with
  | none => do
    let effs ← error_reply_or_direct domains retmsg ENOTRANSACTION
      "Cannot find transaction"
    return ⟨false, effs⟩
  | some info =>
    if info.transactions.isEmpty then do
      let effs ← error_reply_or_direct domains retmsg ENOTRANSACTION
        "Cannot find transaction"
      return ⟨false, effs⟩
    else
      return ⟨false, [.routed (apply_search_result retmsg info)]⟩

/-- A REQUEST_TRAVERSE_TRANSACTIONS message as decoded by the codec, with
all the fields the branch reads (no asset-group or user filter present). -/
def travDat (d s q t : Nat) (dirv hopv : Int) : Msg :=
  [(.command, .cmd .REQUEST_TRAVERSE_TRANSACTIONS), (.source_user_id, .bytes s),
   (.query_id, .bytes q), (.domain_id, .bytes d), (.transaction_id, .bytes t),
   (.direction, .int dirv), (.hop_count, .int hopv)]

/-- The error reply produced by the REQUEST_TRAVERSE_TRANSACTIONS branch on
an empty tree: the response skeleton with the echoed transaction id, status
ENOTRANSACTION and reason "Cannot find transaction" (the mutations of
bbc_core.py lines 279-281 and 289 in order). -/
def traverse_error_msg (domain_id_v srcv qidv txidv : Value) : Msg :=
  msg_set
    (msg_set
      (msg_set
        (_make_message_structure domain_id_v .RESPONSE_TRAVERSE_TRANSACTIONS
          srcv qidv)
        .transaction_id txidv)
      .status (.int ENOTRANSACTION))
    .reason (.str "Cannot find transaction")

/-- bbc_core.py lines 274-294, the REQUEST_TRAVERSE_TRANSACTIONS branch of
`_process`: param check on domain_id, transaction_id, direction and
hop_count; build the response skeleton and echo the transaction id; run the
traversal; on an empty tree send the ENOTRANSACTION error reply (with the
direct-to-socket fallback), otherwise route the response carrying the tree
and the all_included flag.  The branch always reports
disconnection = False.  Unpacking a None traversal result would raise a
TypeError. -/
def process_traverse_transactions (domains : Domains) (dat : Msg) :
    Except String ProcOut := do
  let pc ← _param_check domains [.domain_id, .transaction_id, .direction,
    .hop_count] dat
  if !pc.1 then return ⟨false, pc.2⟩
  let srcv ← getOrKeyError dat .source_user_id
  let qidv ← getOrKeyError dat .query_id
  let domain_id_v := (msg_get dat .domain_id).getD .vnone
  let retmsg := _make_message_structure domain_id_v
    .RESPONSE_TRAVERSE_TRANSACTIONS srcv qidv
  let txidv ← getOrKeyError dat .transaction_id
  let retmsg := msg_set retmsg .transaction_id txidv
  let dirv ← getOrKeyError dat .direction
  let hopv ← getOrKeyError dat .hop_count
  let res ← _traverse_transactions domains
    (optVBytes (msg_get dat .domain_id)) (optVBytes (some txidv))
    (optVBytes (msg_get dat .asset_group_id))
    (optVBytes (msg_get dat .user_id))
    (optVInt (some dirv) 0) (optVInt (some hopv) 0)
  match res with
  | none => .error "TypeError"
  | some r =>
    if r.2.isEmpty then do
      let effs ← error_reply_or_direct domains retmsg ENOTRANSACTION
        "Cannot find transaction"
      return ⟨false, effs⟩
    else
      let retmsg := msg_set retmsg .transaction_tree (.tree r.2)
      let retmsg := msg_set retmsg .all_included (.boolean r.1)
      return ⟨false, [.routed retmsg]⟩

/-- bbc_core.py lines 460-480, `validate_transaction`: structural
deserialization (the external collaborator; None on failure), digest, then
signature validation — here the returned 3-tuple IS unpacked and its flag
tested (line 475), unlike in `_create_search_result`. -/
def validate_transaction (deserialize : Nat → Option TxObj) (txdata : Nat) :
    Option TxObj :=
  match deserialize txdata with
  | none => none
  | some txobj =>
    if (validate_transaction_object txobj).1 then some txobj else none

/-- The outcome shape of `insert_transaction`: a human-readable reason
string, or the structured record `{KeyType.transaction_id: id}`. -/
inductive InsertResult where
  | reason : String → InsertResult
  | record : Nat → InsertResult
  deriving DecidableEq, Repr

/-- bbc_core.py lines 482-512, `insert_transaction`: only a None domain_id
is rejected up front ("Set up the domain, first!"); then the transaction is
validated ("Bad transaction format" on failure); then the registry is
indexed (`self.networking.domains[domain_id]`, line 502 — KeyError when the
non-None domain is not registered); then the storage insert runs ("Failed
to insert a transaction into the ledger" on failure), and on success the
inserted id is returned. -/
def insert_transaction (deserialize : Nat → Option TxObj) (domains : Domains)
    (domain_id : Option Nat) (txdata : Nat) : Except String InsertResult :=
  match domain_id with
  | none => .ok (.reason "Set up the domain, first!")
  | some did =>
    match validate_transaction deserialize txdata with
    | none => .ok (.reason "Bad transaction format")
    | some txobj =>
      match alookup domains did with
      | none => .error "KeyError"
      | some dh =>
        match dh.insert_transaction txdata txobj with
        | none => .ok (.reason "Failed to insert a transaction into the ledger")
        | some _asset_group_ids => .ok (.record txobj.transaction_id)

/-- One REQUEST_SIGNATURE message of the signature-gathering fan-out
(bbc_core.py lines 542-554): the base structure with the requester as
source, re-addressed to `dst`, with the optional hint, the transaction data
and the optional transactions context copied from the request.  The Python
code mutates a single dict across iterations, but every per-iteration
mutation except the destination writes the same value, so each routed
snapshot equals this per-destination construction. -/
def sigRequestMsg (domain_id : Nat) (dat : Msg) (qidv srcv : Value)
    (dst : Nat) : Msg :=
  let m := _make_message_structure (.bytes domain_id) .REQUEST_SIGNATURE
    .vnone qidv
  let m := msg_set m .source_user_id srcv
  let m := msg_set m .destination_user_id (.bytes dst)
  let m := match msg_get dat .hint with
           | some hv => msg_set m .hint hv
           | none => m
  let m := match msg_get dat .transaction_data with
           | some td => msg_set m .transaction_data td
           | none => m
  match msg_get dat .transactions with
  | some ts => msg_set m .transactions ts
  | none => m

/-- bbc_core.py lines 545-554, `for dst in destinations`: skip the
requester, otherwise build the sign-request and route it.  Indexing
`dat[KeyType.transaction_data]` raises KeyError when absent (only reached
for a non-requester destination). -/
def distributeLoop (domain_id : Nat) (dat : Msg) (qidv srcv : Value) :
    List Nat → Except String (List Effect)
  | [] => .ok []
  | dst :: rest =>
    if Value.bytes dst = srcv then distributeLoop domain_id dat qidv srcv rest
    else do
      let _ ← getOrKeyError dat .transaction_data
      let effs ← distributeLoop domain_id dat qidv srcv rest
      .ok (Effect.routed (sigRequestMsg domain_id dat qidv srcv dst) :: effs)

/-- bbc_core.py lines 532-555, `_distribute_transaction_to_gather_signatures`:
read the destination list, the query id and the requester id from the
message (KeyError when absent), look up the domain's User Routing Table
(KeyError when the domain is unregistered), fan the sign-request out to
every destination other than the requester, and return True. -/
def _distribute_transaction_to_gather_signatures (domains : Domains)
    (domain_id : Nat) (dat : Msg) : Except String (Bool × List Effect) := do
  let dstsv ← getOrKeyError dat .destination_user_ids
  let qidv ← getOrKeyError dat .query_id
  let srcv ← getOrKeyError dat .source_user_id
  match alookup domains domain_id with
  | none => .error "KeyError"
  | some _umr =>
    match dstsv with
    | .idlist destinations => do
      let effs ← distributeLoop domain_id dat qidv srcv destinations
      return (true, effs)
    | _ => .error "TypeError"

/-- A transaction object present in the concrete stores below. -/
def objW : TxObj := ⟨1, 100, true, [], []⟩

/-- A minimal storage handler: transaction 1 exists with no topology edges
(an ancestor-less transaction), conditional search finds nothing, storage
insert fails. -/
def dhW : DataHandler where
  search_transaction := fun n => if n == 1 then some objW else none
  search_by_condition := fun _ _ _ _ _ => []
  search_transaction_topology := fun _ _ => some []
  get_asset_info := fun _ => []
  insert_transaction := fun _ _ => none

/-- Like `dhW` but with a succeeding storage insert. -/
def dhIns : DataHandler :=
  { dhW with insert_transaction := fun _ _ => some [11] }

/-- The whole transaction store of the C7 scenario: exactly two
transactions. -/
def dhC7_store : List (Nat × TxObj) :=
  [(1, ⟨1, 101, true, [], []⟩), (2, ⟨2, 102, true, [], []⟩)]

/-- Storage for the C7 scenario: transaction 1 has thirty parallel
topology edges, all pointing at transaction 2 (a heavily re-converging
graph of just two transactions). -/
def dhC7 : DataHandler where
  search_transaction := fun n => alookup dhC7_store n
  search_by_condition := fun _ _ _ _ _ => []
  search_transaction_topology := fun n p =>
    if n == 1 && p then some (List.replicate 30 (0, 2, 2)) else some []
  get_asset_info := fun _ => []
  insert_transaction := fun _ _ => none

/-- The filter-failing transaction of the C3 scenario (asset group 10). -/
def objF : TxObj := ⟨1, 201, true, [], []⟩

/-- The filter-matching neighbor of the C3 scenario (asset group 20). -/
def objM : TxObj := ⟨2, 202, true, [], []⟩

/-- Storage for the C3 scenario: transaction 1 (asset group 10) has one
backward topology edge to transaction 2 (asset group 20). -/
def dhC3 : DataHandler where
  search_transaction := fun n => alookup [(1, objF), (2, objM)] n
  search_by_condition := fun _ _ _ _ _ => []
  search_transaction_topology := fun n p =>
    if n == 1 && p then some [(0, 2, 2)] else some []
  get_asset_info := fun o =>
    if o.transaction_id == 1 then [(10, 0, 50)] else [(20, 0, 50)]
  insert_transaction := fun _ _ => none

/-- Storage for the C6 scenario: the conditional search finds exactly one
(claimed id, object) pair, with mismatching ids (a compromised match). -/
def dhC6 : DataHandler where
  search_transaction := fun _ => none
  search_by_condition := fun _ _ _ _ _ => [(7, ⟨8, 300, true, [], []⟩)]
  search_transaction_topology := fun _ _ => none
  get_asset_info := fun _ => []
  insert_transaction := fun _ _ => none

/-- A REQUEST_SEARCH_WITH_CONDITIONS message with no filters, for domain 5. -/
def datC6 : Msg :=
  [(.command, .cmd .REQUEST_SEARCH_WITH_CONDITIONS), (.source_user_id, .bytes 1),
   (.query_id, .bytes 2), (.domain_id, .bytes 5)]

/-- A message whose command requires transaction_id (etc.) but which only
carries command, source_user_id and a domain_id of an unregistered
domain. -/
def datC4a : Msg :=
  [(.command, .cmd .REQUEST_TRAVERSE_TRANSACTIONS), (.source_user_id, .bytes 1),
   (.domain_id, .bytes 7)]

/-- A message whose command requires domain_id (etc.) but which only
carries command and source_user_id. -/
def datC4b : Msg :=
  [(.command, .cmd .REQUEST_TRAVERSE_TRANSACTIONS), (.source_user_id, .bytes 1)]

/-- The deserializer of the C5 scenario: byte string 5 parses to a
transaction that passes signature validation; everything else fails to
deserialize. -/
def deserC5 : Nat → Option TxObj :=
  fun n => if n == 5 then some ⟨9, 400, true, [], []⟩ else none

/-- A REQUEST_GATHER_SIGNATURE message of the C9 witness scenario:
requester 5, destinations [4, 5, 6] (the requester lists itself). -/
def datC9 : Msg :=
  [(.command, .cmd .REQUEST_GATHER_SIGNATURE), (.source_user_id, .bytes 5),
   (.query_id, .bytes 2), (.domain_id, .bytes 3),
   (.transaction_data, .bytes 77), (.destination_user_ids, .idlist [4, 5, 6])]

/-- The ids of one layer's candidate list that are resolved for the first
time at that hop: first occurrences in processing order, skipping ids
already visited before the layer.  This is the declarative counterpart of
the txids-marking of bbc_core.py lines 682-685, following the claim's words
"transactions first reached at hop i". -/
def visitList : List Nat → List Nat → List Nat
  | [], _ => []
  | x :: rest, txs =>
    if x ∈ txs then visitList rest txs
    else x :: visitList rest (txs ++ [x])

/-- Whether, and as what, a first-resolved id contributes to its hop's
layer: its serialized transaction data when storage finds it and it passes
the asset filter (bbc_core.py lines 686-701), nothing otherwise — the
claim's words "that passed the filter". -/
def keptData (dh : DataHandler) (asset_group_id user_id : Option Nat)
    (x : Nat) : Option Nat :=
  match dh.search_transaction x with
  | none => none
  | some txobj =>
    if (asset_group_id.isSome || user_id.isSome) &&
        !(filter_match asset_group_id user_id (dh.get_asset_info txobj)) then
      none
    else some txobj.transaction_data

/-- The layered output described hop by hop, following the claim's words:
hop i contributes the serialized transactions of the ids first resolved at
hop i (`visitList`) that were found in storage and passed the filter
(`keptData`), an empty contribution being dropped; the walk state advances
by the implementation's layer step. -/
def layersFrom (dh : DataHandler) (a u : Option Nat) (p : Bool) :
    Nat → Nat → List Nat → List Nat → List (List Nat)
  | 0, _, _, _ => []
  | Nat.succ hops, tc, txs, cur =>
    if tc + cur.length > TX_TRAVERSAL_MAX then []
    else
      let kept := (visitList cur txs).filterMap (keptData dh a u)
      let st := cur.foldl (processTxid dh a u p) ⟨tc, txs, [], []⟩
      (if kept.length > 0 then [kept] else []) ++
        layersFrom dh a u p hops st.tx_count st.txids st.next_txids

/-- A REQUEST_SEARCH_WITH_CONDITIONS message as decoded by the codec, with
domain d and arbitrary values for the remaining fields (an ill-typed or
`vnone` filter value behaves like an absent filter key, both mapping to the
None filter argument). -/
def searchDat (d : Nat) (srcv qidv agv aiv uv dv cv : Value) : Msg :=
  [(.command, .cmd .REQUEST_SEARCH_WITH_CONDITIONS), (.source_user_id, srcv),
   (.query_id, qidv), (.domain_id, .bytes d), (.asset_group_id, agv),
   (.asset_id, aiv), (.user_id, uv), (.direction, dv), (.count, cv)]

/-- C1: In `_create_search_result`, a pair whose claimed id differs from the
recomputed id is classified compromised (first conjunct, as the claim says);
but a pair whose ids agree is classified valid even when signature
validation fails (second conjunct): with `valid_flag = false` the object
still lands in the `transactions` (valid) list, because line 81 tests the
truthiness of the 3-tuple returned by `validate_transaction_object`, which
is always true.  The claim (and spec) require it to be classified
compromised, so the code is at fault. -/
theorem c1_validation_flag_ignored :
    _create_search_result [(5, ⟨6, 100, true, [], []⟩)] =
      ⟨[], [100]⟩ ∧
    _create_search_result [(5, ⟨5, 100, false, [], [7]⟩)] =
      ⟨[100], []⟩ := by
  constructor
  · rfl
  · rfl

theorem msg_get_set_eq (m : Msg) (k : KeyType) (v : Value) :
    msg_get (msg_set m k v) k = some v := by
  induction m with
  | nil => simp [msg_set, msg_get]
  | cons hd tl ih =>
    by_cases hk : hd.1 = k
    · simp [msg_set, msg_get, hk]
    · simp [msg_set, msg_get, hk, ih]

theorem msg_get_set_ne (m : Msg) (k k' : KeyType) (v : Value) (h : k ≠ k') :
    msg_get (msg_set m k v) k' = msg_get m k' := by
  induction m with
  | nil => simp [msg_set, msg_get, h]
  | cons hd tl ih =>
    by_cases hk : hd.1 = k
    · simp [msg_set, msg_get, hk, h]
    · simp [msg_set, msg_get, hk, ih]


theorem processTxid_split (dh : DataHandler) (a u : Option Nat) (p : Bool)
    (st : LayerState) (x : Nat) :
    ∃ bs ns, processTxid dh a u p st x =
      ⟨(if x ∈ st.txids then st.tx_count else st.tx_count + 1),
       (if x ∈ st.txids then st.txids else st.txids ++ [x]),
       st.tx_brothers ++ bs, st.next_txids ++ ns⟩ := by
  by_cases hc : x ∈ st.txids
  · refine ⟨[], [], ?_⟩
    simp [processTxid, hc]
  · cases hs : dh.search_transaction x with
    | none =>
      refine ⟨[], [], ?_⟩
      simp [processTxid, hc, hs]
    | some txobj =>
      by_cases hf : ((a.isSome || u.isSome) &&
          !(filter_match a u (dh.get_asset_info txobj))) = true
      · refine ⟨[], [], ?_⟩
        simp [processTxid, hc, hs, hf]
      · cases ht : dh.search_transaction_topology x p with
        | none =>
          refine ⟨[txobj.transaction_data], [], ?_⟩
          simp [processTxid, hc, hs, hf, ht]
        | some edges =>
          refine ⟨[txobj.transaction_data],
            (edges.map (pickNext p)).filter
              (fun n => !((st.txids ++ [x]).contains n)), ?_⟩
          simp [processTxid, hc, hs, hf, ht]

theorem foldl_inv {α β : Type} (f : α → β → α) (P : α → Prop)
    (hstep : ∀ st x, P st → P (f st x)) :
    ∀ (l : List β) (st : α), P st → P (l.foldl f st) := by
  intro l
  induction l with
  | nil => intro st h; exact h
  | cons x rest ih => intro st h; exact ih (f st x) (hstep st x h)

theorem processTxid_count_le (dh : DataHandler) (a u : Option Nat) (p : Bool)
    (st : LayerState) (x : Nat) :
    (processTxid dh a u p st x).tx_count ≤ st.tx_count + 1 := by
  obtain ⟨bs, ns, h⟩ := processTxid_split dh a u p st x
  rw [h]
  by_cases hc : x ∈ st.txids <;> simp [hc]

theorem processTxid_inv_eq (dh : DataHandler) (a u : Option Nat) (p : Bool)
    (st : LayerState) (x : Nat)
    (hinv : st.tx_count = st.txids.length) :
    (processTxid dh a u p st x).tx_count =
      (processTxid dh a u p st x).txids.length := by
  obtain ⟨bs, ns, h⟩ := processTxid_split dh a u p st x
  rw [h]
  by_cases hc : x ∈ st.txids <;> simp [hc, hinv]

theorem processTxid_inv_nodup (dh : DataHandler) (a u : Option Nat) (p : Bool)
    (st : LayerState) (x : Nat) (hnd : st.txids.Nodup) :
    (processTxid dh a u p st x).txids.Nodup := by
  obtain ⟨bs, ns, h⟩ := processTxid_split dh a u p st x
  rw [h]
  by_cases hc : x ∈ st.txids
  · simp [hc, hnd]
  · simp only [hc, if_false]
    exact List.Nodup.append hnd (List.nodup_singleton x)
      (by simpa [List.disjoint_singleton] using hc)

theorem foldl_processTxid_count_le (dh : DataHandler) (a u : Option Nat)
    (p : Bool) :
    ∀ (cur : List Nat) (st : LayerState),
      (cur.foldl (processTxid dh a u p) st).tx_count ≤
        st.tx_count + cur.length := by
  intro cur
  induction cur with
  | nil => intro st; simp
  | cons x rest ih =>
    intro st
    calc (List.foldl (processTxid dh a u p) (processTxid dh a u p st x) rest).tx_count
        ≤ (processTxid dh a u p st x).tx_count + rest.length := ih _
      _ ≤ (st.tx_count + 1) + rest.length :=
          Nat.add_le_add_right (processTxid_count_le dh a u p st x) _
      _ = st.tx_count + (x :: rest).length := by simp; omega

theorem travLoop_succ_exceed (dh : DataHandler) (a u : Option Nat) (p : Bool)
    (n tc : Nat) (txs cur : List Nat) (tree : List (List Nat)) (flag : Bool)
    (hg : tc + cur.length > TX_TRAVERSAL_MAX) :
    travLoop dh a u p (n + 1) tc txs cur tree flag = ⟨false, tree, tc, txs⟩ := by
  simp [travLoop, hg]

theorem travLoop_succ_within (dh : DataHandler) (a u : Option Nat) (p : Bool)
    (n tc : Nat) (txs cur : List Nat) (tree : List (List Nat)) (flag : Bool)
    (hg : ¬ tc + cur.length > TX_TRAVERSAL_MAX) :
    travLoop dh a u p (n + 1) tc txs cur tree flag =
      travLoop dh a u p n
        (cur.foldl (processTxid dh a u p) ⟨tc, txs, [], []⟩).tx_count
        (cur.foldl (processTxid dh a u p) ⟨tc, txs, [], []⟩).txids
        (cur.foldl (processTxid dh a u p) ⟨tc, txs, [], []⟩).next_txids
        (if (cur.foldl (processTxid dh a u p) ⟨tc, txs, [], []⟩).tx_brothers.length > 0
         then tree ++ [(cur.foldl (processTxid dh a u p) ⟨tc, txs, [], []⟩).tx_brothers]
         else tree)
        flag := by
  simp [travLoop, hg]

theorem layersOK_succ_within (dh : DataHandler) (a u : Option Nat) (p : Bool)
    (n tc : Nat) (txs cur : List Nat)
    (hg : ¬ tc + cur.length > TX_TRAVERSAL_MAX) :
    layersOK dh a u p (n + 1) tc txs cur =
      layersOK dh a u p n
        (cur.foldl (processTxid dh a u p) ⟨tc, txs, [], []⟩).tx_count
        (cur.foldl (processTxid dh a u p) ⟨tc, txs, [], []⟩).txids
        (cur.foldl (processTxid dh a u p) ⟨tc, txs, [], []⟩).next_txids := by
  simp [layersOK, hg]

theorem travLoop_tree_facts (dh : DataHandler) (a u : Option Nat) (p : Bool) :
    ∀ (hops tc : Nat) (txs cur : List Nat) (tree : List (List Nat))
      (flag : Bool),
      (∃ suffix, (travLoop dh a u p hops tc txs cur tree flag).txtree =
        tree ++ suffix) ∧
      (travLoop dh a u p hops tc txs cur tree flag).txtree.length ≤
        tree.length + hops := by
  intro hops
  induction hops with
  | zero =>
    intro tc txs cur tree flag
    exact ⟨⟨[], by simp [travLoop]⟩, by simp [travLoop]⟩
  | succ n ih =>
    intro tc txs cur tree flag
    by_cases hg : tc + cur.length > TX_TRAVERSAL_MAX
    · rw [travLoop_succ_exceed dh a u p n tc txs cur tree flag hg]
      exact ⟨⟨[], by simp⟩, Nat.le_add_right _ _⟩
    · rw [travLoop_succ_within dh a u p n tc txs cur tree flag hg]
      set st := cur.foldl (processTxid dh a u p) ⟨tc, txs, [], []⟩ with hst
      by_cases hb : st.tx_brothers.length > 0
      · rw [if_pos hb]
        obtain ⟨⟨suf, hsuf⟩, hlen⟩ := ih st.tx_count st.txids st.next_txids
          (tree ++ [st.tx_brothers]) flag
        refine ⟨⟨[st.tx_brothers] ++ suf, by rw [hsuf, List.append_assoc]⟩, ?_⟩
        have h1 : (tree ++ [st.tx_brothers]).length = tree.length + 1 := by simp
        omega
      · rw [if_neg hb]
        obtain ⟨⟨suf, hsuf⟩, hlen⟩ := ih st.tx_count st.txids st.next_txids
          tree flag
        exact ⟨⟨suf, hsuf⟩, by omega⟩

theorem travLoop_visited (dh : DataHandler) (a u : Option Nat) (p : Bool) :
    ∀ (hops tc : Nat) (txs cur : List Nat) (tree : List (List Nat))
      (flag : Bool),
      tc = txs.length → tc ≤ TX_TRAVERSAL_MAX → txs.Nodup →
      ((travLoop dh a u p hops tc txs cur tree flag).tx_count =
        (travLoop dh a u p hops tc txs cur tree flag).txids.length ∧
       (travLoop dh a u p hops tc txs cur tree flag).tx_count ≤
        TX_TRAVERSAL_MAX ∧
       (travLoop dh a u p hops tc txs cur tree flag).txids.Nodup) := by
  intro hops
  induction hops with
  | zero =>
    intro tc txs cur tree flag heq hle hnd
    exact ⟨heq, hle, hnd⟩
  | succ n ih =>
    intro tc txs cur tree flag heq hle hnd
    by_cases hg : tc + cur.length > TX_TRAVERSAL_MAX
    · rw [travLoop_succ_exceed dh a u p n tc txs cur tree flag hg]
      exact ⟨heq, hle, hnd⟩
    · rw [travLoop_succ_within dh a u p n tc txs cur tree flag hg]
      have hst_eq :
          (cur.foldl (processTxid dh a u p) ⟨tc, txs, [], []⟩).tx_count =
          (cur.foldl (processTxid dh a u p) ⟨tc, txs, [], []⟩).txids.length :=
        foldl_inv (processTxid dh a u p)
          (fun st => st.tx_count = st.txids.length)
          (fun st x h => processTxid_inv_eq dh a u p st x h) cur ⟨tc, txs, [], []⟩ heq
      have hst_nd : (cur.foldl (processTxid dh a u p) ⟨tc, txs, [], []⟩).txids.Nodup :=
        foldl_inv (processTxid dh a u p) (fun st => st.txids.Nodup)
          (fun st x h => processTxid_inv_nodup dh a u p st x h) cur ⟨tc, txs, [], []⟩ hnd
      have hst_le : (cur.foldl (processTxid dh a u p) ⟨tc, txs, [], []⟩).tx_count ≤
          TX_TRAVERSAL_MAX := by
        have := foldl_processTxid_count_le dh a u p cur ⟨tc, txs, [], []⟩
        simp at this
        omega
      exact ih _ _ _ _ _ hst_eq hst_le hst_nd

theorem travLoop_flag (dh : DataHandler) (a u : Option Nat) (p : Bool) :
    ∀ (hops tc : Nat) (txs cur : List Nat) (tree : List (List Nat))
      (flag : Bool),
      (travLoop dh a u p hops tc txs cur tree flag).include_all_flag =
        (flag && layersOK dh a u p hops tc txs cur) := by
  intro hops
  induction hops with
  | zero =>
    intro tc txs cur tree flag
    simp [travLoop, layersOK]
  | succ n ih =>
    intro tc txs cur tree flag
    by_cases hg : tc + cur.length > TX_TRAVERSAL_MAX
    · rw [travLoop_succ_exceed dh a u p n tc txs cur tree flag hg]
      simp [layersOK, hg]
    · rw [travLoop_succ_within dh a u p n tc txs cur tree flag hg,
        layersOK_succ_within dh a u p n tc txs cur hg]
      exact ih _ _ _ _ _

theorem travLoop_flag_indep (dh : DataHandler) (a u : Option Nat) (p : Bool) :
    ∀ (hops tc : Nat) (txs cur : List Nat) (tree : List (List Nat))
      (flag flag' : Bool),
      (travLoop dh a u p hops tc txs cur tree flag).txtree =
        (travLoop dh a u p hops tc txs cur tree flag').txtree ∧
      (travLoop dh a u p hops tc txs cur tree flag).txids =
        (travLoop dh a u p hops tc txs cur tree flag').txids := by
  intro hops
  induction hops with
  | zero =>
    intro tc txs cur tree flag flag'
    simp [travLoop]
  | succ n ih =>
    intro tc txs cur tree flag flag'
    by_cases hg : tc + cur.length > TX_TRAVERSAL_MAX
    · rw [travLoop_succ_exceed dh a u p n tc txs cur tree flag hg,
        travLoop_succ_exceed dh a u p n tc txs cur tree flag' hg]
      exact ⟨rfl, rfl⟩
    · rw [travLoop_succ_within dh a u p n tc txs cur tree flag hg,
        travLoop_succ_within dh a u p n tc txs cur tree flag' hg]
      exact ih _ _ _ _ _ _

theorem travLoop_empty_current (dh : DataHandler) (a u : Option Nat)
    (p : Bool) :
    ∀ (hops tc : Nat) (txs : List Nat) (tree : List (List Nat)) (flag : Bool),
      tc ≤ TX_TRAVERSAL_MAX →
      travLoop dh a u p hops tc txs [] tree flag = ⟨flag, tree, tc, txs⟩ := by
  intro hops
  induction hops with
  | zero =>
    intro tc txs tree flag _
    simp [travLoop]
  | succ n ih =>
    intro tc txs tree flag hle
    have hg : ¬ tc + ([] : List Nat).length > TX_TRAVERSAL_MAX := by
      simp
      omega
    rw [travLoop_succ_within dh a u p n tc txs [] tree flag hg]
    simp only [List.foldl_nil]
    exact ih tc txs tree flag hle

theorem tx_traversal_max_int : (TX_TRAVERSAL_MAX : Int) * 2 = 60 := by
  norm_num [TX_TRAVERSAL_MAX]

theorem traverse_full_eq (dh : DataHandler) (t : Nat) (a u : Option Nat)
    (dir h : Int) :
    traverse_full dh t a u dir h =
      if h > 60 then travLoop dh a u (dir == 1) 60 0 [] [t] [] false
      else travLoop dh a u (dir == 1) h.toNat 0 [] [t] [] true := by
  simp only [traverse_full, tx_traversal_max_int]
  by_cases hh : h > 60
  · rw [if_pos hh, if_pos hh]
    rfl
  · rw [if_neg hh, if_neg hh]

theorem traverse_full_nonpos (dh : DataHandler) (t : Nat) (a u : Option Nat)
    (dir : Int) (h : Int) (hh : h ≤ 0) :
    traverse_full dh t a u dir h = ⟨true, [], 0, []⟩ := by
  rw [traverse_full_eq]
  have hng : ¬ h > 60 := by omega
  rw [if_neg hng, Int.toNat_of_nonpos hh]
  simp [travLoop]

theorem traverse_full_visited (dh : DataHandler) (t : Nat) (a u : Option Nat)
    (dir h : Int) :
    (traverse_full dh t a u dir h).txids.length ≤ TX_TRAVERSAL_MAX ∧
    (traverse_full dh t a u dir h).txids.Nodup := by
  rw [traverse_full_eq]
  by_cases hh : h > 60
  · rw [if_pos hh]
    obtain ⟨he, hle, hnd⟩ := travLoop_visited dh a u (dir == 1) 60 0 [] [t] []
      false rfl (Nat.zero_le _) List.nodup_nil
    exact ⟨by rw [← he]; exact hle, hnd⟩
  · rw [if_neg hh]
    obtain ⟨he, hle, hnd⟩ := travLoop_visited dh a u (dir == 1) h.toNat 0 []
      [t] [] true rfl (Nat.zero_le _) List.nodup_nil
    exact ⟨by rw [← he]; exact hle, hnd⟩

theorem traverse_full_tree_len (dh : DataHandler) (t : Nat) (a u : Option Nat)
    (dir h : Int) :
    (traverse_full dh t a u dir h).txtree.length ≤ 60 := by
  rw [traverse_full_eq]
  by_cases hh : h > 60
  · rw [if_pos hh]
    have := (travLoop_tree_facts dh a u (dir == 1) 60 0 [] [t] [] false).2
    simpa using this
  · rw [if_neg hh]
    have := (travLoop_tree_facts dh a u (dir == 1) h.toNat 0 [] [t] [] true).2
    have htn : h.toNat ≤ 60 := Int.toNat_le.mpr (by omega)
    simp at this
    omega

theorem traverse_core_fst (dh : DataHandler) (t : Nat) (a u : Option Nat)
    (dir h : Int) :
    (traverse_core dh t a u dir h).1 =
      (traverse_full dh t a u dir h).include_all_flag := rfl

theorem traverse_core_snd (dh : DataHandler) (t : Nat) (a u : Option Nat)
    (dir h : Int) :
    (traverse_core dh t a u dir h).2 =
      (traverse_full dh t a u dir h).txtree := rfl

theorem traverse_core_clamp (dh : DataHandler) (t : Nat) (a u : Option Nat)
    (dir : Int) (h : Int) (hh : h > 60) :
    (traverse_core dh t a u dir h).1 = false ∧
    (traverse_core dh t a u dir h).2 = (traverse_core dh t a u dir 60).2 := by
  rw [traverse_core_fst, traverse_core_snd, traverse_core_snd,
    traverse_full_eq, traverse_full_eq, if_pos hh,
    if_neg (by omega : ¬ (60 : Int) > 60)]
  constructor
  · rw [travLoop_flag]
    simp
  · have hind := (travLoop_flag_indep dh a u (dir == 1) 60 0 [] [t] []
      false true).1
    have h60 : ((60 : Int)).toNat = 60 := rfl
    rw [h60]
    exact hind

theorem traverse_flag_iff (dh : DataHandler) (t : Nat) (a u : Option Nat)
    (dir h : Int) :
    ((traverse_core dh t a u dir h).1 = true ↔
      (h ≤ 60 ∧ layersOK dh a u (dir == 1) h.toNat 0 [] [t] = true)) := by
  rw [traverse_core_fst, traverse_full_eq]
  by_cases hh : h > 60
  · rw [if_pos hh]
    have hns : ¬ h ≤ 60 := by omega
    rw [travLoop_flag]
    simp [hns]
  · rw [if_neg hh]
    have hs : h ≤ 60 := by omega
    rw [travLoop_flag]
    simp [hs]

theorem traverse_wrapper (domains : Domains) (d : Nat) (dh : DataHandler)
    (hd : alookup domains d = some dh) (t : Nat) (a u : Option Nat)
    (dir h : Int) :
    _traverse_transactions domains (some d) (some t) a u dir h =
      .ok (some (traverse_core dh t a u dir h)) := by
  simp [_traverse_transactions, hd]

theorem processTxid_start_none (dh : DataHandler) (p : Bool) (t : Nat)
    (txobj : TxObj) (hs : dh.search_transaction t = some txobj)
    (ht : dh.search_transaction_topology t p = none) :
    processTxid dh none none p ⟨0, [], [], []⟩ t =
      ⟨1, [t], [txobj.transaction_data], []⟩ := by
  simp [processTxid, hs, ht]

theorem processTxid_start_some (dh : DataHandler) (p : Bool) (t : Nat)
    (txobj : TxObj) (edges : List (Nat × Nat × Nat))
    (hs : dh.search_transaction t = some txobj)
    (ht : dh.search_transaction_topology t p = some edges) :
    processTxid dh none none p ⟨0, [], [], []⟩ t =
      ⟨1, [t], [txobj.transaction_data],
        (edges.map (pickNext p)).filter
          (fun n => !(([t] : List Nat).contains n))⟩ := by
  simp [processTxid, hs, ht]

theorem toNat_pos_succ (h : Int) (h1 : 1 ≤ h) : ∃ n, h.toNat = n + 1 := by
  have hpos : 0 < h.toNat := Int.lt_toNat.mpr (by omega)
  exact ⟨h.toNat - 1, by omega⟩

theorem traverse_no_ancestors (dh : DataHandler) (t : Nat) (txobj : TxObj)
    (h : Int) (hs : dh.search_transaction t = some txobj)
    (htopo : dh.search_transaction_topology t true = some [])
    (h1 : 1 ≤ h) (h60 : h ≤ 60) :
    traverse_core dh t none none 1 h = (true, [[txobj.transaction_data]]) := by
  have hfull : traverse_full dh t none none 1 h =
      ⟨true, [[txobj.transaction_data]], 1, [t]⟩ := by
    rw [traverse_full_eq, if_neg (by omega : ¬ h > 60)]
    obtain ⟨n, hn⟩ := toNat_pos_succ h h1
    have hp : ((1 : Int) == 1) = true := rfl
    rw [hn, hp, travLoop_succ_within dh none none true n 0 [] [t] [] true
      (by simp [TX_TRAVERSAL_MAX])]
    simp only [List.foldl_cons, List.foldl_nil]
    rw [processTxid_start_some dh true t txobj [] hs htopo]
    simp only [List.map_nil, List.filter_nil]
    rw [if_pos (by simp : (⟨1, [t], [txobj.transaction_data], []⟩ :
      LayerState).tx_brothers.length > 0)]
    simp only [List.nil_append]
    exact travLoop_empty_current dh none none true n 1 [t]
      [[txobj.transaction_data]] true (by simp [TX_TRAVERSAL_MAX])
  rw [traverse_core]
  rw [hfull]

theorem traverse_first_layer (dh : DataHandler) (t : Nat) (txobj : TxObj)
    (dir h : Int) (hs : dh.search_transaction t = some txobj)
    (h1 : 1 ≤ h) (h60 : h ≤ 60) :
    ∃ rest, (traverse_core dh t none none dir h).2 =
      [txobj.transaction_data] :: rest := by
  rw [traverse_core_snd, traverse_full_eq, if_neg (by omega : ¬ h > 60)]
  obtain ⟨n, hn⟩ := toNat_pos_succ h h1
  rw [hn, travLoop_succ_within dh none none (dir == 1) n 0 [] [t] [] true
    (by simp [TX_TRAVERSAL_MAX])]
  simp only [List.foldl_cons, List.foldl_nil]
  cases ht : dh.search_transaction_topology t (dir == 1) with
  | none =>
    rw [processTxid_start_none dh (dir == 1) t txobj hs ht]
    rw [if_pos (by simp : (⟨1, [t], [txobj.transaction_data], []⟩ :
      LayerState).tx_brothers.length > 0)]
    simp only [List.nil_append]
    obtain ⟨suf, hsuf⟩ := (travLoop_tree_facts dh none none (dir == 1) n 1 [t]
      [] [[txobj.transaction_data]] true).1
    exact ⟨suf, by rw [hsuf]; rfl⟩
  | some edges =>
    rw [processTxid_start_some dh (dir == 1) t txobj edges hs ht]
    rw [if_pos (by simp : (⟨1, [t], [txobj.transaction_data],
      (edges.map (pickNext (dir == 1))).filter
        (fun n => !(([t] : List Nat).contains n))⟩ :
      LayerState).tx_brothers.length > 0)]
    simp only [List.nil_append]
    obtain ⟨suf, hsuf⟩ := (travLoop_tree_facts dh none none (dir == 1) n 1 [t]
      ((edges.map (pickNext (dir == 1))).filter
        (fun n => !(([t] : List Nat).contains n)))
      [[txobj.transaction_data]] true).1
    exact ⟨suf, by rw [hsuf]; rfl⟩

theorem process_traverse_empty (domains : Domains) (d : Nat) (dh : DataHandler)
    (hd : alookup domains d = some dh) (s q t : Nat) (dv hv : Int)
    (hEmpty : (traverse_core dh t none none dv hv).2 = []) :
    process_traverse_transactions domains (travDat d s q t dv hv) =
      .ok ⟨false, [.routed (traverse_error_msg (.bytes d) (.bytes s) (.bytes q)
        (.bytes t))]⟩ := by
  simp [process_traverse_transactions, travDat, _param_check, msg_hasKey,
    msg_get, getOrKeyError, optVBytes, optVInt, _traverse_transactions, hd,
    error_reply_or_direct, _error_reply, msg_set, _make_message_structure,
    domainLookup, traverse_error_msg, hEmpty, Bind.bind, Except.bind,
    Pure.pure, Except.pure, Functor.map, Except.map]

/-- C2: With a registered domain and a non-None start id, the traversal
resolves at most 30 distinct transaction ids (the visited list stays
duplicate-free and within TX_TRAVERSAL_MAX = 30), expands at most 60 hop
layers, silently clamps a hop_count above 60 to 60 while clearing
all_included (the returned tree equals the one computed at 60 hops), and
whenever the visited counter plus the size of the next layer's candidate
list would pass 30 the walk stops before processing that layer, clears
all_included, and returns the partial tree gathered so far. -/
theorem c2_traversal_caps (domains : Domains) (d : Nat) (dh : DataHandler)
    (hd : alookup domains d = some dh) (t : Nat) (a u : Option Nat)
    (dir h : Int) (hops tc : Nat) (txs cur : List Nat)
    (tree0 : List (List Nat)) (fl : Bool)
    (hcap : tc + cur.length > TX_TRAVERSAL_MAX) :
    _traverse_transactions domains (some d) (some t) a u dir h =
      .ok (some (traverse_core dh t a u dir h)) ∧
    (traverse_full dh t a u dir h).txids.length ≤ TX_TRAVERSAL_MAX ∧
    (traverse_full dh t a u dir h).txids.Nodup ∧
    (traverse_full dh t a u dir h).txtree.length ≤ 60 ∧
    (h > 60 → (traverse_core dh t a u dir h).1 = false ∧
      (traverse_core dh t a u dir h).2 = (traverse_core dh t a u dir 60).2) ∧
    travLoop dh a u (dir == 1) (hops + 1) tc txs cur tree0 fl =
      ⟨false, tree0, tc, txs⟩ :=
  ⟨traverse_wrapper domains d dh hd t a u dir h,
   (traverse_full_visited dh t a u dir h).1,
   (traverse_full_visited dh t a u dir h).2,
   traverse_full_tree_len dh t a u dir h,
   fun hh => traverse_core_clamp dh t a u dir h hh,
   travLoop_succ_exceed dh a u (dir == 1) hops tc txs cur tree0 fl hcap⟩

/-- Witness for c2_traversal_caps at a concrete registry, storage and
state. -/
theorem c2_traversal_caps_witness :
    (alookup [(5, dhW)] 5 = some dhW ∧
     29 + ([9, 9] : List Nat).length > TX_TRAVERSAL_MAX) ∧
    (_traverse_transactions [(5, dhW)] (some 5) (some 1) none none 1 70 =
      .ok (some (traverse_core dhW 1 none none 1 70)) ∧
    (traverse_full dhW 1 none none 1 70).txids.length ≤ TX_TRAVERSAL_MAX ∧
    (traverse_full dhW 1 none none 1 70).txids.Nodup ∧
    (traverse_full dhW 1 none none 1 70).txtree.length ≤ 60 ∧
    ((70 : Int) > 60 → (traverse_core dhW 1 none none 1 70).1 = false ∧
      (traverse_core dhW 1 none none 1 70).2 =
        (traverse_core dhW 1 none none 1 60).2) ∧
    travLoop dhW none none ((1 : Int) == 1) (0 + 1) 29 [] [9, 9] [] true =
      ⟨false, [], 29, []⟩) :=
  ⟨⟨rfl, by decide⟩,
   c2_traversal_caps [(5, dhW)] 5 dhW rfl 1 none none 1 70 0 29 [] [9, 9] []
     true (by decide)⟩

/-- C7 counterexample: a two-transaction store whose start transaction has
thirty parallel edges to the same neighbor.  The whole graph has 2
transactions (within the 30-entry cap) and the requested hop count is 2
(within the 60-hop cap), yet all_included comes back false: the per-layer
budget check counts the candidate list with multiplicity, so re-converging
edges trip the cap even though the reachable set is tiny.  Only one id was
ever resolved. -/
theorem c7_counterexample :
    traverse_core dhC7 1 none none 1 2 = (false, [[101]]) ∧
    (traverse_full dhC7 1 none none 1 2).txids = [1] ∧
    dhC7_store.map Prod.fst = [1, 2] ∧
    dhC7_store.length ≤ 30 ∧ (2 : Int) ≤ 60 := by
  exact ⟨by decide, by decide, by decide, by decide, by decide⟩

/-- C7 (amended): for every storage behavior, hop count and topology
(cyclic ones included) the traversal terminates — it is a total function,
so this needs no separate statement — and never resolves the same
transaction id twice (the list of ids looked up in storage is
duplicate-free); all_included remains true exactly when the requested
hop_count is at most 60 and no layer trips the budget check
`tx_count + len(current_txids) > 30`, in which the candidate list counts
duplicate ids coming from re-converging edges (so a small cyclic graph
keeps all_included = true only as long as that inflated count stays within
the cap). -/
theorem c7_traversal_cycle_safe (dh : DataHandler) (t : Nat)
    (a u : Option Nat) (dir h : Int) :
    (traverse_full dh t a u dir h).txids.Nodup ∧
    ((traverse_core dh t a u dir h).1 = true ↔
      (h ≤ 60 ∧ layersOK dh a u (dir == 1) h.toNat 0 [] [t] = true)) :=
  ⟨(traverse_full_visited dh t a u dir h).2, traverse_flag_iff dh t a u dir h⟩

/-- C3 counterexample: the start transaction 1 fails the asset-group filter
(its group is 10, the filter asks for 20) and has a backward edge to
transaction 2, which matches the filter.  The claim says the neighbors of a
filtered-out transaction are still explored; in fact the `continue` of
bbc_core.py line 700 skips the topology expansion too, so transaction 2 is
never visited (txids stays [1]) and the returned tree is empty. -/
theorem c3_counterexample :
    traverse_core dhC3 1 (some 20) none 1 3 = (true, []) ∧
    (traverse_full dhC3 1 (some 20) none 1 3).txids = [1] ∧
    filter_match (some 20) none (dhC3.get_asset_info objM) = true ∧
    dhC3.search_transaction_topology 1 true = some [(0, 2, 2)] := by
  exact ⟨by decide, by decide, by decide, by decide⟩

/-- C3 (amended): when a filter is specified and a visited transaction has
no asset record matching all specified filters, the transaction is
excluded from the tree AND its topology edges are not expanded — the layer
step only counts and marks the id, leaving both the layer's collection
(tx_brothers) and the next layer's candidates (next_txids) unchanged, so
its neighbors are reached only through other, filter-matching
transactions. -/
theorem c3_filter_blocks (dh : DataHandler) (a u : Option Nat) (p : Bool)
    (st : LayerState) (txid : Nat) (txobj : TxObj)
    (hvis : txid ∉ st.txids)
    (hs : dh.search_transaction txid = some txobj)
    (hfil : (a.isSome || u.isSome) = true)
    (hmatch : filter_match a u (dh.get_asset_info txobj) = false) :
    processTxid dh a u p st txid =
      ⟨st.tx_count + 1, st.txids ++ [txid], st.tx_brothers, st.next_txids⟩ := by
  simp [processTxid, hvis, hs, hfil, hmatch]

/-- Witness for c3_filter_blocks at the concrete C3 storage. -/
theorem c3_filter_blocks_witness :
    ((1 ∉ ([] : List Nat)) ∧
     dhC3.search_transaction 1 = some objF ∧
     (((some 20 : Option Nat).isSome || (none : Option Nat).isSome) = true) ∧
     filter_match (some 20) none (dhC3.get_asset_info objF) = false) ∧
    processTxid dhC3 (some 20) none true ⟨0, [], [], []⟩ 1 =
      ⟨0 + 1, [] ++ [1], [], []⟩ :=
  ⟨⟨by decide, by decide, by decide, by decide⟩,
   c3_filter_blocks dhC3 (some 20) none true ⟨0, [], [], []⟩ 1 objF
     (by decide) (by decide) (by decide) (by decide)⟩

/-- C4 counterexample: datC4a lacks the required transaction_id and names an
unregistered domain — the claim says the error reply is then written
directly to the originating socket, but `_param_check` discards
`_error_reply`'s False result, so nothing at all is sent (no routed and no
direct effect).  datC4b lacks the domain_id key itself — `_error_reply`
indexes `msg[KeyType.domain_id]` and raises a KeyError, which propagates to
the connection handler and ends the loop, contradicting the claim that a
malformed message never tears down the connection. -/
theorem c4_counterexample :
    _param_check [] [.domain_id, .transaction_id, .direction, .hop_count]
      datC4a = .ok (false, []) ∧
    _param_check [] [.domain_id, .transaction_id, .direction, .hop_count]
      datC4b = .error "KeyError" := by
  exact ⟨rfl, rfl⟩

/-- C4 (amended): when a required key of the command is absent,
`_param_check` returns false (the dispatcher branch then reports
disconnection = False, so the loop continues) and the EINVALID_COMMAND /
"lack of mandatory params" error reply is delivered only through the
domain's User Routing Table, and only when the message carries a domain_id
value naming a registered domain; when the domain_id value is present but
unregistered the reply is silently dropped (there is no direct-to-socket
fallback here), and when the domain_id key is absent the reply attempt
raises a KeyError, which ends the connection loop. -/
theorem c4_missing_param (domains : Domains) (params : List KeyType)
    (dat : Msg) (p : KeyType) (hp : p ∈ params)
    (hmiss : msg_hasKey dat p = false) :
    _param_check domains params dat =
      (match msg_get dat .domain_id with
       | none => Except.error "KeyError"
       | some v =>
         match domainLookup domains v with
         | some _ => Except.ok (false,
             [Effect.routed (msg_set (msg_set dat .status
               (.int EINVALID_COMMAND)) .reason
               (.str "lack of mandatory params"))])
         | none => Except.ok (false, [])) := by
  have hex : (params.find? (fun p' => !(msg_hasKey dat p'))).isSome := by
    rw [List.find?_isSome]
    exact ⟨p, hp, by simp [hmiss]⟩
  obtain ⟨x, hx⟩ := Option.isSome_iff_exists.mp hex
  simp only [_param_check, hx, _error_reply]
  rw [msg_get_set_ne _ _ _ _ (by decide : KeyType.reason ≠ KeyType.domain_id),
      msg_get_set_ne _ _ _ _ (by decide : KeyType.status ≠ KeyType.domain_id)]
  cases hv : msg_get dat .domain_id with
  | none => simp [Bind.bind, Except.bind]
  | some v =>
    cases hl : domainLookup domains v with
    | some dh' => simp [hl, Bind.bind, Except.bind]
    | none => simp [hl, Bind.bind, Except.bind]

/-- Witness for c4_missing_param: a registered domain, so the reply is
routed. -/
theorem c4_missing_param_witness :
    (KeyType.transaction_id ∈ [KeyType.domain_id, KeyType.transaction_id] ∧
     msg_hasKey ([(.command, .cmd .REQUEST_TRAVERSE_TRANSACTIONS),
        (.source_user_id, .bytes 1), (.domain_id, .bytes 5)] : Msg) .transaction_id = false) ∧
    _param_check [(5, dhW)] [KeyType.domain_id, KeyType.transaction_id]
      ([(.command, .cmd .REQUEST_TRAVERSE_TRANSACTIONS),
        (.source_user_id, .bytes 1), (.domain_id, .bytes 5)] : Msg) =
      (match msg_get ([(.command, .cmd .REQUEST_TRAVERSE_TRANSACTIONS),
        (.source_user_id, .bytes 1), (.domain_id, .bytes 5)] : Msg) .domain_id with
       | none => Except.error "KeyError"
       | some v =>
         match domainLookup [(5, dhW)] v with
         | some _ => Except.ok (false,
             [Effect.routed (msg_set (msg_set ([(.command, .cmd .REQUEST_TRAVERSE_TRANSACTIONS),
        (.source_user_id, .bytes 1), (.domain_id, .bytes 5)] : Msg) .status
               (.int EINVALID_COMMAND)) .reason
               (.str "lack of mandatory params"))])
         | none => Except.ok (false, [])) :=
  ⟨⟨by decide, by decide⟩,
   c4_missing_param [(5, dhW)] [KeyType.domain_id, KeyType.transaction_id]
     ([(.command, .cmd .REQUEST_TRAVERSE_TRANSACTIONS),
        (.source_user_id, .bytes 1), (.domain_id, .bytes 5)] : Msg) KeyType.transaction_id (by decide) (by decide)⟩

theorem optVBytes_bytes (b : Nat) : optVBytes (some (.bytes b)) = some b :=
  rfl

/-- C6 counterexample: the conditional search finds exactly one matching
(claimed id, object) pair, but the ids mismatch, so the classification puts
it under compromised_transactions only; the branch then tests
`KeyType.transactions not in txinfo` and sends the ENOTRANSACTION /
"Cannot find transaction" error reply even though the result set is not
empty — contradicting the claim that ENOTRANSACTION is sent only when the
result set is empty (and that the response carries the
compromised_transactions list whenever there is at least one match). -/
theorem c6_counterexample :
    (dhC6.search_by_condition none none none 0 1).length = 1 ∧
    process_search_with_conditions [(5, dhC6)] datC6 =
      .ok ⟨false, [.routed (msg_set (msg_set (_make_message_structure
        (.bytes 5) .RESPONSE_SEARCH_WITH_CONDITIONS (.bytes 1) (.bytes 2))
        .status (.int ENOTRANSACTION)) .reason
        (.str "Cannot find transaction"))]⟩ := by
  exact ⟨rfl, rfl⟩

/-- C6 (amended): with a registered domain, a REQUEST_SEARCH_WITH_CONDITIONS
message is answered with a routed RESPONSE_SEARCH_WITH_CONDITIONS carrying
the transactions (and, when present, compromised_transactions) lists
exactly when classification yields at least one valid transaction;
otherwise — when the result set is empty OR every match is classified
compromised — the ENOTRANSACTION / "Cannot find transaction" error reply is
routed instead. -/
theorem c6_search_conditions_reply (domains : Domains) (d : Nat)
    (dh : DataHandler) (hd : alookup domains d = some dh)
    (srcv qidv agv aiv uv dv cv : Value) :
    process_search_with_conditions domains
        (searchDat d srcv qidv agv aiv uv dv cv) =
      .ok ⟨false, [.routed
        (if (_create_search_result (dh.search_by_condition
            (optVBytes (some agv)) (optVBytes (some aiv))
            (optVBytes (some uv)) (optVInt (some dv) 0)
            (optVInt (some cv) 1))).transactions.isEmpty
         then
          msg_set (msg_set (_make_message_structure (.bytes d)
            .RESPONSE_SEARCH_WITH_CONDITIONS srcv qidv) .status
            (.int ENOTRANSACTION)) .reason (.str "Cannot find transaction")
         else apply_search_result (_make_message_structure (.bytes d)
          .RESPONSE_SEARCH_WITH_CONDITIONS srcv qidv)
          (_create_search_result (dh.search_by_condition
            (optVBytes (some agv)) (optVBytes (some aiv))
            (optVBytes (some uv)) (optVInt (some dv) 0)
            (optVInt (some cv) 1))))]⟩ := by
  by_cases hr0 : (dh.search_by_condition (optVBytes (some agv))
      (optVBytes (some aiv)) (optVBytes (some uv)) (optVInt (some dv) 0)
      (optVInt (some cv) 1)).length = 0
  · have hre : dh.search_by_condition (optVBytes (some agv))
        (optVBytes (some aiv)) (optVBytes (some uv)) (optVInt (some dv) 0)
        (optVInt (some cv) 1) = [] := List.length_eq_zero.mp hr0
    simp [process_search_with_conditions, searchDat, _param_check,
      msg_hasKey, msg_get, getOrKeyError, search_transaction_with_condition,
      hd, hre, error_reply_or_direct, _error_reply, msg_set, optVBytes_bytes,
      _make_message_structure, domainLookup, Bind.bind, Except.bind,
      Pure.pure, Except.pure, _create_search_result]
  · have hrne : ¬ (dh.search_by_condition (optVBytes (some agv))
        (optVBytes (some aiv)) (optVBytes (some uv)) (optVInt (some dv) 0)
        (optVInt (some cv) 1) = []) := by
      intro hcontra
      exact hr0 (by rw [hcontra]; rfl)
    by_cases htx : (_create_search_result (dh.search_by_condition
        (optVBytes (some agv)) (optVBytes (some aiv)) (optVBytes (some uv))
        (optVInt (some dv) 0) (optVInt (some cv) 1))).transactions = []
    · simp [process_search_with_conditions, searchDat, _param_check,
        msg_hasKey, msg_get, getOrKeyError, search_transaction_with_condition,
        hd, hrne, htx, error_reply_or_direct, _error_reply, msg_set,
        optVBytes_bytes, _make_message_structure, domainLookup, Bind.bind,
        Except.bind, Pure.pure, Except.pure]
    · simp [process_search_with_conditions, searchDat, _param_check,
        msg_hasKey, msg_get, getOrKeyError, search_transaction_with_condition,
        hd, hrne, htx, error_reply_or_direct, _error_reply, msg_set,
        optVBytes_bytes, _make_message_structure, domainLookup, Bind.bind,
        Except.bind, Pure.pure, Except.pure]

/-- Witness for c6_search_conditions_reply at a concrete registry (empty
search result, so the error branch is taken). -/
theorem c6_search_conditions_reply_witness :
    (alookup [(5, dhW)] 5 = some dhW) ∧
    process_search_with_conditions [(5, dhW)]
        (searchDat 5 (.bytes 1) (.bytes 2) .vnone .vnone .vnone (.int 0)
          (.int 1)) =
      .ok ⟨false, [.routed
        (if (_create_search_result (dhW.search_by_condition
            (optVBytes (some .vnone)) (optVBytes (some .vnone))
            (optVBytes (some .vnone)) (optVInt (some (.int 0)) 0)
            (optVInt (some (.int 1)) 1))).transactions.isEmpty
         then
          msg_set (msg_set (_make_message_structure (.bytes 5)
            .RESPONSE_SEARCH_WITH_CONDITIONS (.bytes 1) (.bytes 2)) .status
            (.int ENOTRANSACTION)) .reason (.str "Cannot find transaction")
         else apply_search_result (_make_message_structure (.bytes 5)
          .RESPONSE_SEARCH_WITH_CONDITIONS (.bytes 1) (.bytes 2))
          (_create_search_result (dhW.search_by_condition
            (optVBytes (some .vnone)) (optVBytes (some .vnone))
            (optVBytes (some .vnone)) (optVInt (some (.int 0)) 0)
            (optVInt (some (.int 1)) 1))))]⟩ :=
  ⟨rfl, c6_search_conditions_reply [(5, dhW)] 5 dhW rfl (.bytes 1) (.bytes 2)
    .vnone .vnone .vnone (.int 0) (.int 1)⟩

theorem processTxid_visited (dh : DataHandler) (a u : Option Nat) (p : Bool)
    (st : LayerState) (x : Nat) (hx : x ∈ st.txids) :
    processTxid dh a u p st x = st := by
  simp [processTxid, hx]

theorem processTxid_new_fields (dh : DataHandler) (a u : Option Nat)
    (p : Bool) (st : LayerState) (x : Nat) (hx : x ∉ st.txids) :
    (processTxid dh a u p st x).txids = st.txids ++ [x] ∧
    (processTxid dh a u p st x).tx_brothers =
      st.tx_brothers ++ (keptData dh a u x).toList := by
  cases hs : dh.search_transaction x with
  | none => simp [processTxid, hx, hs, keptData]
  | some txobj =>
    by_cases hf : ((a.isSome || u.isSome) &&
        !(filter_match a u (dh.get_asset_info txobj))) = true
    · simp [processTxid, hx, hs, hf, keptData]
    · cases ht : dh.search_transaction_topology x p <;>
        simp [processTxid, hx, hs, hf, ht, keptData]

theorem foldl_layer_char (dh : DataHandler) (a u : Option Nat) (p : Bool) :
    ∀ (cur : List Nat) (st : LayerState),
      ((cur.foldl (processTxid dh a u p) st).txids =
        st.txids ++ visitList cur st.txids) ∧
      ((cur.foldl (processTxid dh a u p) st).tx_brothers =
        st.tx_brothers ++ (visitList cur st.txids).filterMap
          (keptData dh a u)) := by
  intro cur
  induction cur with
  | nil =>
    intro st
    simp [visitList]
  | cons x rest ih =>
    intro st
    by_cases hx : x ∈ st.txids
    · simp only [List.foldl_cons, processTxid_visited dh a u p st x hx,
        visitList, if_pos hx]
      exact ih st
    · obtain ⟨h1, h2⟩ := processTxid_new_fields dh a u p st x hx
      obtain ⟨ih1, ih2⟩ := ih (processTxid dh a u p st x)
      rw [h1] at ih1
      rw [h2, h1] at ih2
      constructor
      · simp only [List.foldl_cons]
        rw [ih1]
        simp [visitList, hx, List.append_assoc]
      · simp only [List.foldl_cons]
        rw [ih2]
        cases hk : keptData dh a u x <;>
          simp [visitList, hx, hk, List.filterMap_cons, List.append_assoc]

theorem travLoop_layers (dh : DataHandler) (a u : Option Nat) (p : Bool) :
    ∀ (hops tc : Nat) (txs cur : List Nat) (tree : List (List Nat))
      (flag : Bool),
      (travLoop dh a u p hops tc txs cur tree flag).txtree =
        tree ++ layersFrom dh a u p hops tc txs cur := by
  intro hops
  induction hops with
  | zero =>
    intro tc txs cur tree flag
    simp [travLoop, layersFrom]
  | succ n ih =>
    intro tc txs cur tree flag
    by_cases hg : tc + cur.length > TX_TRAVERSAL_MAX
    · rw [travLoop_succ_exceed dh a u p n tc txs cur tree flag hg]
      simp [layersFrom, hg]
    · rw [travLoop_succ_within dh a u p n tc txs cur tree flag hg]
      have hlf : layersFrom dh a u p (n + 1) tc txs cur =
          (if ((visitList cur txs).filterMap (keptData dh a u)).length > 0
           then [(visitList cur txs).filterMap (keptData dh a u)] else []) ++
          layersFrom dh a u p n
            (cur.foldl (processTxid dh a u p) ⟨tc, txs, [], []⟩).tx_count
            (cur.foldl (processTxid dh a u p) ⟨tc, txs, [], []⟩).txids
            (cur.foldl (processTxid dh a u p) ⟨tc, txs, [], []⟩).next_txids := by
        simp [layersFrom, hg]
      rw [hlf, ih]
      have hbro := (foldl_layer_char dh a u p cur ⟨tc, txs, [], []⟩).2
      simp only [List.nil_append] at hbro
      rw [hbro]
      by_cases hk :
          ((visitList cur txs).filterMap (keptData dh a u)).length > 0
      · rw [if_pos hk, if_pos hk]
        simp [List.append_assoc]
      · rw [if_neg hk, if_neg hk]
        simp

theorem processTxid_next_inv (dh : DataHandler) (a u : Option Nat) (p : Bool)
    (st : LayerState) (x : Nat)
    (hP : st.next_txids ≠ [] → st.tx_brothers ≠ []) :
    (processTxid dh a u p st x).next_txids ≠ [] →
      (processTxid dh a u p st x).tx_brothers ≠ [] := by
  by_cases hx : x ∈ st.txids
  · rw [processTxid_visited dh a u p st x hx]
    exact hP
  · cases hs : dh.search_transaction x with
    | none =>
      have he : processTxid dh a u p st x =
          ⟨st.tx_count + 1, st.txids ++ [x], st.tx_brothers,
            st.next_txids⟩ := by
        simp [processTxid, hx, hs]
      rw [he]
      simpa using hP
    | some txobj =>
      by_cases hf : ((a.isSome || u.isSome) &&
          !(filter_match a u (dh.get_asset_info txobj))) = true
      · have he : processTxid dh a u p st x =
            ⟨st.tx_count + 1, st.txids ++ [x], st.tx_brothers,
              st.next_txids⟩ := by
          simp [processTxid, hx, hs, hf]
        rw [he]
        simpa using hP
      · cases ht : dh.search_transaction_topology x p with
        | none =>
          have he : processTxid dh a u p st x =
              ⟨st.tx_count + 1, st.txids ++ [x],
                st.tx_brothers ++ [txobj.transaction_data],
                st.next_txids⟩ := by
            simp [processTxid, hx, hs, hf, ht]
          rw [he]
          intro _
          simp
        | some edges =>
          have he : processTxid dh a u p st x =
              ⟨st.tx_count + 1, st.txids ++ [x],
                st.tx_brothers ++ [txobj.transaction_data],
                st.next_txids ++ (edges.map (pickNext p)).filter
                  (fun n => !((st.txids ++ [x]).contains n))⟩ := by
            simp [processTxid, hx, hs, hf, ht]
          rw [he]
          intro _
          simp

theorem foldl_next_empty (dh : DataHandler) (a u : Option Nat) (p : Bool)
    (cur : List Nat) (tc : Nat) (txs : List Nat)
    (hb : (cur.foldl (processTxid dh a u p) ⟨tc, txs, [], []⟩).tx_brothers
      = []) :
    (cur.foldl (processTxid dh a u p) ⟨tc, txs, [], []⟩).next_txids = [] := by
  have hinv := foldl_inv (processTxid dh a u p)
    (fun st => st.next_txids ≠ [] → st.tx_brothers ≠ [])
    (fun st x h => processTxid_next_inv dh a u p st x h) cur
    ⟨tc, txs, [], []⟩ (by simp)
  by_contra hn
  exact (hinv hn) hb

theorem travLoop_stop_empty (dh : DataHandler) (a u : Option Nat) (p : Bool)
    (n tc : Nat) (txs cur : List Nat) (tree : List (List Nat)) (flag : Bool)
    (hb : (cur.foldl (processTxid dh a u p) ⟨tc, txs, [], []⟩).tx_brothers
      = []) :
    (travLoop dh a u p (n + 1) tc txs cur tree flag).txtree = tree := by
  by_cases hg : tc + cur.length > TX_TRAVERSAL_MAX
  · rw [travLoop_succ_exceed dh a u p n tc txs cur tree flag hg]
  · rw [travLoop_succ_within dh a u p n tc txs cur tree flag hg]
    rw [hb, foldl_next_empty dh a u p cur tc txs hb]
    have hle : (cur.foldl (processTxid dh a u p)
        ⟨tc, txs, [], []⟩).tx_count ≤ TX_TRAVERSAL_MAX := by
      have := foldl_processTxid_count_le dh a u p cur ⟨tc, txs, [], []⟩
      simp at this
      omega
    simp only [List.length_nil, gt_iff_lt, Nat.lt_irrefl, if_false]
    rw [travLoop_empty_current dh a u p n _ _ tree flag hle]

theorem travLoop_nonempty_layers (dh : DataHandler) (a u : Option Nat)
    (p : Bool) :
    ∀ (hops tc : Nat) (txs cur : List Nat) (tree : List (List Nat))
      (flag : Bool),
      (∀ l ∈ tree, l ≠ []) →
      ∀ l ∈ (travLoop dh a u p hops tc txs cur tree flag).txtree, l ≠ [] := by
  intro hops
  induction hops with
  | zero =>
    intro tc txs cur tree flag h
    simpa [travLoop] using h
  | succ n ih =>
    intro tc txs cur tree flag h
    by_cases hg : tc + cur.length > TX_TRAVERSAL_MAX
    · rw [travLoop_succ_exceed dh a u p n tc txs cur tree flag hg]
      exact h
    · rw [travLoop_succ_within dh a u p n tc txs cur tree flag hg]
      apply ih
      by_cases hbl : (cur.foldl (processTxid dh a u p)
          ⟨tc, txs, [], []⟩).tx_brothers.length > 0
      · rw [if_pos hbl]
        intro l hl
        rcases List.mem_append.mp hl with hl1 | hl2
        · exact h l hl1
        · have : l = (cur.foldl (processTxid dh a u p)
              ⟨tc, txs, [], []⟩).tx_brothers := by simpa using hl2
          rw [this]
          intro hcontra
          rw [hcontra] at hbl
          simp at hbl
      · rw [if_neg hbl]
        exact h

theorem traverse_layers (dh : DataHandler) (t : Nat) (a u : Option Nat)
    (dir h : Int) :
    (traverse_core dh t a u dir h).2 =
      layersFrom dh a u (dir == 1) (if h > 60 then 60 else h.toNat)
        0 [] [t] := by
  rw [traverse_core_snd, traverse_full_eq]
  by_cases hh : h > 60
  · rw [if_pos hh, if_pos hh, travLoop_layers]
    simp
  · rw [if_neg hh, if_neg hh, travLoop_layers]
    simp

theorem traverse_nonempty_layers (dh : DataHandler) (t : Nat)
    (a u : Option Nat) (dir h : Int) :
    ∀ l ∈ (traverse_core dh t a u dir h).2, l ≠ [] := by
  rw [traverse_core_snd, traverse_full_eq]
  by_cases hh : h > 60
  · rw [if_pos hh]
    exact travLoop_nonempty_layers dh a u (dir == 1) 60 0 [] [t] [] false
      (by simp)
  · rw [if_neg hh]
    exact travLoop_nonempty_layers dh a u (dir == 1) h.toNat 0 [] [t] [] true
      (by simp)

/-- C8 counterexample: transaction 1 exists and has no ancestors (its
backward topology is empty), yet a backward traversal with hop_count 3
returns a single-layer tree containing the start transaction itself, not
the empty tree the claim promises (the first processed layer is the start
id itself, bbc_core.py lines 668 and 681). -/
theorem c8_counterexample :
    traverse_core dhW 1 none none 1 3 = (true, [[100]]) ∧
    ([[100]] : List (List Nat)) ≠ [] ∧
    dhW.search_transaction_topology 1 true = some [] := by
  exact ⟨by decide, by decide, by decide⟩

/-- C8 (amended): the tree is the hop-indexed sequence of nonempty layers:
in full generality (any storage, any filters, any direction and hop count)
the returned tree equals `layersFrom`, the hop-by-hop description in which
hop i contributes exactly the serialized transactions of the ids first
resolved at hop i (`visitList`) that were found in storage and passed the
filter (`keptData`); every returned layer is nonempty; a single layer's
collection is exactly that characterization; a hop whose collection is
empty contributes nothing further (so dropped empty layers occur only at
the tail and the outermost index is the hop index); a backward traversal
from an existing, ancestor-less transaction (no filters, hop_count between
1 and 60) returns the single-layer tree holding exactly that transaction
with all_included = true, not an empty tree; in general, the first layer
of an unfiltered traversal from an existing transaction is exactly that
transaction's serialized data; and an empty overall tree makes the
dispatcher report ENOTRANSACTION / "Cannot find transaction" to the
caller. -/
theorem c8_layered_tree (dh : DataHandler) (t : Nat) (txobj : TxObj)
    (h : Int) (hs : dh.search_transaction t = some txobj)
    (htopo : dh.search_transaction_topology t true = some [])
    (h1 : 1 ≤ h) (h60 : h ≤ 60)
    (dh2 : DataHandler) (t2 : Nat) (txobj2 : TxObj) (dir2 h2 : Int)
    (hs2 : dh2.search_transaction t2 = some txobj2)
    (h21 : 1 ≤ h2) (h260 : h2 ≤ 60)
    (domains : Domains) (d3 : Nat) (dh3 : DataHandler)
    (hd3 : alookup domains d3 = some dh3) (s3 q3 t3 : Nat) (dv3 hv3 : Int)
    (hEmpty : (traverse_core dh3 t3 none none dv3 hv3).2 = [])
    (dh4 : DataHandler) (t4 : Nat) (a4 u4 : Option Nat) (dir4 h4 : Int)
    (p5 : Bool) (n5 tc5 : Nat) (txs5 cur5 : List Nat)
    (tree5 : List (List Nat)) (fl5 : Bool)
    (hstop : (cur5.foldl (processTxid dh4 a4 u4 p5)
      ⟨tc5, txs5, [], []⟩).tx_brothers = []) :
    traverse_core dh t none none 1 h = (true, [[txobj.transaction_data]]) ∧
    (∃ rest, (traverse_core dh2 t2 none none dir2 h2).2 =
      [txobj2.transaction_data] :: rest) ∧
    process_traverse_transactions domains (travDat d3 s3 q3 t3 dv3 hv3) =
      .ok ⟨false, [.routed (traverse_error_msg (.bytes d3) (.bytes s3)
        (.bytes q3) (.bytes t3))]⟩ ∧
    (traverse_core dh4 t4 a4 u4 dir4 h4).2 =
      layersFrom dh4 a4 u4 (dir4 == 1) (if h4 > 60 then 60 else h4.toNat)
        0 [] [t4] ∧
    (∀ l ∈ (traverse_core dh4 t4 a4 u4 dir4 h4).2, l ≠ []) ∧
    (cur5.foldl (processTxid dh4 a4 u4 p5) ⟨tc5, txs5, [], []⟩).tx_brothers =
      (visitList cur5 txs5).filterMap (keptData dh4 a4 u4) ∧
    (travLoop dh4 a4 u4 p5 (n5 + 1) tc5 txs5 cur5 tree5 fl5).txtree =
      tree5 :=
  ⟨traverse_no_ancestors dh t txobj h hs htopo h1 h60,
   traverse_first_layer dh2 t2 txobj2 dir2 h2 hs2 h21 h260,
   process_traverse_empty domains d3 dh3 hd3 s3 q3 t3 dv3 hv3 hEmpty,
   traverse_layers dh4 t4 a4 u4 dir4 h4,
   traverse_nonempty_layers dh4 t4 a4 u4 dir4 h4,
   by
     have hch := (foldl_layer_char dh4 a4 u4 p5 cur5 ⟨tc5, txs5, [], []⟩).2
     simpa using hch,
   travLoop_stop_empty dh4 a4 u4 p5 n5 tc5 txs5 cur5 tree5 fl5 hstop⟩

/-- Witness for c8_layered_tree: dhW for the ancestor-less and first-layer
scenarios (start id 9 being absent gives the empty tree for the dispatcher
part), and dhC3 with the asset-group-20 filter for the general layered
characterization and the stopped-layer scenarios (the start fails the
filter, so its layer collection is empty and the walk contributes no
layers). -/
theorem c8_layered_tree_witness :
    (dhW.search_transaction 1 = some objW ∧
     dhW.search_transaction_topology 1 true = some [] ∧
     alookup [(5, dhW)] 5 = some dhW ∧
     (traverse_core dhW 9 none none 1 3).2 = [] ∧
     (([1] : List Nat).foldl (processTxid dhC3 (some 20) none true)
       ⟨0, [], [], []⟩).tx_brothers = []) ∧
    (traverse_core dhW 1 none none 1 3 = (true, [[objW.transaction_data]]) ∧
    (∃ rest, (traverse_core dhW 1 none none 1 3).2 =
      [objW.transaction_data] :: rest) ∧
    process_traverse_transactions [(5, dhW)] (travDat 5 8 2 9 1 3) =
      .ok ⟨false, [.routed (traverse_error_msg (.bytes 5) (.bytes 8)
        (.bytes 2) (.bytes 9))]⟩ ∧
    (traverse_core dhC3 1 (some 20) none 1 3).2 =
      layersFrom dhC3 (some 20) none ((1 : Int) == 1)
        (if (3 : Int) > 60 then 60 else (3 : Int).toNat) 0 [] [1] ∧
    (∀ l ∈ (traverse_core dhC3 1 (some 20) none 1 3).2, l ≠ []) ∧
    (([1] : List Nat).foldl (processTxid dhC3 (some 20) none true)
      ⟨0, [], [], []⟩).tx_brothers =
      (visitList [1] []).filterMap (keptData dhC3 (some 20) none) ∧
    (travLoop dhC3 (some 20) none true (0 + 1) 0 [] [1] [] true).txtree =
      [] ) :=
  ⟨⟨rfl, rfl, rfl, by decide, by decide⟩,
   c8_layered_tree dhW 1 objW 3 rfl rfl (by decide) (by decide)
     dhW 1 objW 1 3 rfl (by decide) (by decide)
     [(5, dhW)] 5 dhW rfl 8 2 9 1 3 (by decide)
     dhC3 1 (some 20) none 1 3 true 0 0 [] [1] [] true (by decide)⟩

/-- C10: with a registered domain and an existing start transaction, a
non-positive hop_count makes `_traverse_transactions` return (True, [])
without resolving any id against storage (the visited list stays empty),
and the dispatcher branch then answers with the routed ENOTRANSACTION /
"Cannot find transaction" error reply even though the start transaction
exists in storage. -/
theorem c10_nonpositive_hop (domains : Domains) (d : Nat) (dh : DataHandler)
    (hd : alookup domains d = some dh) (s q t : Nat) (dv hv : Int)
    (hv0 : hv ≤ 0) (txobj : TxObj)
    (_hs : dh.search_transaction t = some txobj) :
    _traverse_transactions domains (some d) (some t) none none dv hv =
      .ok (some (true, [])) ∧
    (traverse_full dh t none none dv hv).txids = [] ∧
    process_traverse_transactions domains (travDat d s q t dv hv) =
      .ok ⟨false, [.routed (traverse_error_msg (.bytes d) (.bytes s)
        (.bytes q) (.bytes t))]⟩ := by
  have hfull := traverse_full_nonpos dh t none none dv hv hv0
  have hcore : traverse_core dh t none none dv hv = (true, []) := by
    rw [show traverse_core dh t none none dv hv =
      ((traverse_full dh t none none dv hv).include_all_flag,
       (traverse_full dh t none none dv hv).txtree) from rfl, hfull]
  refine ⟨?_, ?_, ?_⟩
  · rw [traverse_wrapper domains d dh hd, hcore]
  · rw [hfull]
  · exact process_traverse_empty domains d dh hd s q t dv hv
      (by rw [traverse_core_snd, hfull])

/-- Witness for c10_nonpositive_hop with hop_count 0 and the registered
concrete store dhW, in which transaction 1 exists. -/
theorem c10_nonpositive_hop_witness :
    (alookup [(5, dhW)] 5 = some dhW ∧ (0 : Int) ≤ 0 ∧
     dhW.search_transaction 1 = some objW) ∧
    (_traverse_transactions [(5, dhW)] (some 5) (some 1) none none 1 0 =
      .ok (some (true, [])) ∧
    (traverse_full dhW 1 none none 1 0).txids = [] ∧
    process_traverse_transactions [(5, dhW)] (travDat 5 8 2 1 1 0) =
      .ok ⟨false, [.routed (traverse_error_msg (.bytes 5) (.bytes 8)
        (.bytes 2) (.bytes 1))]⟩) :=
  ⟨⟨rfl, by decide, rfl⟩,
   c10_nonpositive_hop [(5, dhW)] 5 dhW rfl 8 2 1 1 0 (by decide) objW rfl⟩

theorem distributeLoop_eq (domain_id : Nat) (dat : Msg) (qidv : Value)
    (src : Nat) (tdv : Value)
    (htd : msg_get dat .transaction_data = some tdv) :
    ∀ dsts : List Nat,
      distributeLoop domain_id dat qidv (.bytes src) dsts =
        .ok ((dsts.filter (fun dst => !(dst == src))).map
          (fun dst => Effect.routed (sigRequestMsg domain_id dat qidv
            (.bytes src) dst))) := by
  intro dsts
  induction dsts with
  | nil => rfl
  | cons x rest ih =>
    by_cases hx : x = src
    · subst hx
      simp [distributeLoop, ih]
    · simp [distributeLoop, hx, ih, getOrKeyError, htd, Bind.bind,
        Except.bind]

theorem sigRequestMsg_fields (domain_id : Nat) (dat : Msg) (qidv srcv : Value)
    (dst : Nat) (tdv : Value)
    (htd : msg_get dat .transaction_data = some tdv) :
    msg_get (sigRequestMsg domain_id dat qidv srcv dst) .command =
      some (.cmd .REQUEST_SIGNATURE) ∧
    msg_get (sigRequestMsg domain_id dat qidv srcv dst) .transaction_data =
      some tdv ∧
    msg_get (sigRequestMsg domain_id dat qidv srcv dst)
      .destination_user_id = some (.bytes dst) := by
  cases hh : msg_get dat .hint with
  | none =>
    cases hts : msg_get dat .transactions with
    | none => simp [sigRequestMsg, _make_message_structure, hh, hts, htd,
        msg_set, msg_get]
    | some ts => simp [sigRequestMsg, _make_message_structure, hh, hts, htd,
        msg_set, msg_get]
  | some hv =>
    cases hts : msg_get dat .transactions with
    | none => simp [sigRequestMsg, _make_message_structure, hh, hts, htd,
        msg_set, msg_get]
    | some ts => simp [sigRequestMsg, _make_message_structure, hh, hts, htd,
        msg_set, msg_get]

/-- C9: with a registered domain and a well-formed request,
`_distribute_transaction_to_gather_signatures` returns True and routes
through the User Routing Table exactly one REQUEST_SIGNATURE message per
listed destination other than the requester (in list order, the requester
filtered out even when listed), each carrying the request's transaction
data and addressed to its destination; the requester never appears among
the recipients. -/
theorem c9_signature_fanout (domains : Domains) (domain_id : Nat)
    (dh : DataHandler) (hdom : alookup domains domain_id = some dh)
    (dat : Msg) (dsts : List Nat) (src : Nat) (qidv tdv : Value) (dst0 : Nat)
    (hdst : msg_get dat .destination_user_ids = some (.idlist dsts))
    (hq : msg_get dat .query_id = some qidv)
    (hsrc : msg_get dat .source_user_id = some (.bytes src))
    (htd : msg_get dat .transaction_data = some tdv) :
    _distribute_transaction_to_gather_signatures domains domain_id dat =
      .ok (true, (dsts.filter (fun dst => !(dst == src))).map
        (fun dst => Effect.routed (sigRequestMsg domain_id dat qidv
          (.bytes src) dst))) ∧
    msg_get (sigRequestMsg domain_id dat qidv (.bytes src) dst0) .command =
      some (.cmd .REQUEST_SIGNATURE) ∧
    msg_get (sigRequestMsg domain_id dat qidv (.bytes src) dst0)
      .transaction_data = some tdv ∧
    msg_get (sigRequestMsg domain_id dat qidv (.bytes src) dst0)
      .destination_user_id = some (.bytes dst0) ∧
    src ∉ dsts.filter (fun dst => !(dst == src)) := by
  obtain ⟨hcmd, htx, hdest⟩ := sigRequestMsg_fields domain_id dat qidv
    (.bytes src) dst0 tdv htd
  refine ⟨?_, hcmd, htx, hdest, ?_⟩
  · simp [_distribute_transaction_to_gather_signatures, getOrKeyError, hdst,
      hq, hsrc, Bind.bind, Except.bind, hdom, Pure.pure, Except.pure,
      distributeLoop_eq domain_id dat qidv src tdv htd]
  · intro hmem
    simp [List.mem_filter] at hmem

/-- Witness for c9_signature_fanout: requester 5 lists destinations
[4, 5, 6] (itself included); exactly two sign-requests go out, to 4 and
to 6. -/
theorem c9_signature_fanout_witness :
    (alookup [(3, dhW)] 3 = some dhW ∧
     msg_get datC9 .destination_user_ids = some (.idlist [4, 5, 6]) ∧
     msg_get datC9 .query_id = some (.bytes 2) ∧
     msg_get datC9 .source_user_id = some (.bytes 5) ∧
     msg_get datC9 .transaction_data = some (.bytes 77)) ∧
    (_distribute_transaction_to_gather_signatures [(3, dhW)] 3 datC9 =
      .ok (true, (([4, 5, 6] : List Nat).filter
        (fun dst => !(dst == 5))).map
        (fun dst => Effect.routed (sigRequestMsg 3 datC9 (.bytes 2)
          (.bytes 5) dst))) ∧
    msg_get (sigRequestMsg 3 datC9 (.bytes 2) (.bytes 5) 4) .command =
      some (.cmd .REQUEST_SIGNATURE) ∧
    msg_get (sigRequestMsg 3 datC9 (.bytes 2) (.bytes 5) 4)
      .transaction_data = some (.bytes 77) ∧
    msg_get (sigRequestMsg 3 datC9 (.bytes 2) (.bytes 5) 4)
      .destination_user_id = some (.bytes 4) ∧
    5 ∉ ([4, 5, 6] : List Nat).filter (fun dst => !(dst == 5))) :=
  ⟨⟨rfl, rfl, rfl, rfl, rfl⟩,
   c9_signature_fanout [(3, dhW)] 3 dhW rfl datC9 [4, 5, 6] 5 (.bytes 2)
     (.bytes 77) 4 rfl rfl rfl rfl⟩

/-- C5: evaluation of `insert_transaction` on concrete registries: a None
domain is rejected up front with "Set up the domain, first!"; a failed
deserialization or validation yields "Bad transaction format"; a storage
failure yields "Failed to insert a transaction into the ledger"; success
returns the structured transaction-id record — but a NON-None domain id
that is not registered, with a transaction that passes validation, raises
a KeyError (bbc_core.py line 502) instead of returning a reason string,
contradicting the claim (and the function's own docstring
"Returns: dict|str") that callers can always branch on the result's shape
and never need to handle an exception, and showing that only a None domain
is rejected before deserialization is attempted. -/
theorem c5_insert_shape :
    insert_transaction deserC5 [] (some 1) 5 = .error "KeyError" ∧
    insert_transaction deserC5 [] none 5 =
      .ok (.reason "Set up the domain, first!") ∧
    insert_transaction deserC5 [(1, dhW)] (some 1) 7 =
      .ok (.reason "Bad transaction format") ∧
    insert_transaction deserC5 [(1, dhW)] (some 1) 5 =
      .ok (.reason "Failed to insert a transaction into the ledger") ∧
    insert_transaction deserC5 [(1, dhIns)] (some 1) 5 = .ok (.record 9) := by
  exact ⟨rfl, rfl, rfl, rfl, rfl⟩
